import Mathlib

/-!
# Verification of the local NLP trading engine (`local_analyzer.py`)

Shallow embedding of the analysis/signal engine: sentiment scoring over a
financial lexicon, company/ticker detection, theme mapping, exchange/price
filtering with a TTL cache, technical-indicator computation, time-decayed
signal aggregation, and the orchestrator.  Numbers are modelled as exact
rationals (`ℚ`); Python floats are decimal literals, so every constant in the
source is an exact rational, and the handful of transcendental operations the
source takes from the maths library (`math.exp`, `math.tanh`) are passed in as
explicit function parameters where a component consumes them, and studied over
`ℝ` where a claim is about the mathematical law itself.  Timestamps are
rationals (seconds); `datetime.now()` values are passed in as `now` parameters.
Python dicts preserve insertion order, so they are modelled as association
lists with in-place update.
-/

set_option maxHeartbeats 1600000
set_option maxRecDepth 10000

/-! ## Python-semantics helpers -/

/-- Python `round` to an integer: banker's rounding (round half to even). -/
def roundHalfEven (q : ℚ) : ℤ :=
  let f : ℤ := ⌊q⌋
  let frac : ℚ := q - f
  if frac < 1/2 then f
  else if 1/2 < frac then f + 1
  else if f % 2 = 0 then f else f + 1

/-- Python `round(x, d)`: round to `d` decimal places, half to even. -/
def pyRound (q : ℚ) (d : ℕ) : ℚ :=
  (roundHalfEven (q * 10 ^ d) : ℚ) / 10 ^ d

/-- Python `int(x)`: truncation toward zero. -/
def pyTrunc (q : ℚ) : ℤ :=
  if q < 0 then -⌊-q⌋ else ⌊q⌋

/-- ASCII lower-case letter test (`[a-z]`). -/
def isLowerAlpha (c : Char) : Bool :=
  'a' ≤ c && c ≤ 'z'

/-- ASCII letter test (`[a-zA-Z]`). -/
def isAsciiLetter (c : Char) : Bool :=
  ('a' ≤ c && c ≤ 'z') || ('A' ≤ c && c ≤ 'Z')

/-- Python `\w` character class member (`[A-Za-z0-9_]`), used for `\b`. -/
def isWordChar (c : Char) : Bool :=
  isAsciiLetter c || ('0' ≤ c && c ≤ '9') || c = '_'

/-- `str.lower()` on one character (the source text is ASCII). -/
def pyLowerChar (c : Char) : Char :=
  if 'A' ≤ c && c ≤ 'Z' then Char.ofNat (c.toNat + 32) else c

/-- `str.lower()` over a character list. -/
def pyLower (s : List Char) : List Char :=
  s.map pyLowerChar

/-- Count of non-overlapping occurrences of a nonempty pattern, scanning left
to right, exactly as Python `str.count` does.  The first argument is fuel
(one unit per scanned position) so that the recursion is structural and the
kernel can evaluate it; `countSub` supplies enough fuel. -/
def countSubAux (pat : List Char) : ℕ → List Char → ℕ
  | _, [] => 0
  | 0, _ => 0
  | fuel + 1, c :: rest =>
    if pat.isPrefixOf (c :: rest) then
      1 + countSubAux pat fuel (rest.drop (pat.length - 1))
    else
      countSubAux pat fuel rest

/-- Python `hay.count(pat)` (for the empty pattern Python returns `len+1`). -/
def countSub (hay pat : List Char) : ℕ :=
  if pat.isEmpty then hay.length + 1 else countSubAux pat hay.length hay

/-- Tokenisation per `re.findall(r"[a-z]+(?:'[a-z]+)?", text)`: maximal runs
of lower-case letters, optionally extended once by an apostrophe and a second
letter run.  Fuelled structural recursion; every step consumes at least one
character, so `tokenize` supplies `length` fuel. -/
def tokenizeAux : ℕ → List Char → List (List Char)
  | _, [] => []
  | 0, _ => []
  | fuel + 1, c :: rest =>
    if isLowerAlpha c then
      let run1 := (c :: rest).takeWhile isLowerAlpha
      let r1 := (c :: rest).dropWhile isLowerAlpha
      match r1 with
      | '\'' :: d :: r2 =>
        if isLowerAlpha d then
          (run1 ++ '\'' :: (d :: r2).takeWhile isLowerAlpha) ::
            tokenizeAux fuel ((d :: r2).dropWhile isLowerAlpha)
        else
          run1 :: tokenizeAux fuel r1
      | _ => run1 :: tokenizeAux fuel r1
    else
      tokenizeAux fuel rest

/-- All tokens of a character list. -/
def tokenize (l : List Char) : List (List Char) :=
  tokenizeAux l.length l

/-- Ordered-dict update: replace the value in place if the key is present,
otherwise append at the end (Python `d[k] = v` semantics). -/
def dset {β : Type} (k : String) (v : β) : List (String × β) → List (String × β)
  | [] => [(k, v)]
  | (k2, w) :: rest => if k2 = k then (k2, v) :: rest else (k2, w) :: dset k v rest

/-- Ordered-dict counter increment (Python `defaultdict(int); d[k] += n`). -/
def dbump (k : String) (n : ℤ) : List (String × ℤ) → List (String × ℤ)
  | [] => [(k, n)]
  | (k2, w) :: rest => if k2 = k then (k2, w + n) :: rest else (k2, w) :: dbump k n rest

/-! ## Lexicon and mapping tables (transcribed from the source) -/

def FINANCIAL_LEXICON : List (String × ℚ) := [
  ("soar", (9/10 : ℚ)),
  ("soars", (9/10 : ℚ)),
  ("soared", (9/10 : ℚ)),
  ("soaring", (9/10 : ℚ)),
  ("surge", (17/20 : ℚ)),
  ("surges", (17/20 : ℚ)),
  ("surged", (17/20 : ℚ)),
  ("surging", (17/20 : ℚ)),
  ("skyrocket", (9/10 : ℚ)),
  ("skyrockets", (9/10 : ℚ)),
  ("skyrocketed", (9/10 : ℚ)),
  ("rally", (4/5 : ℚ)),
  ("rallies", (4/5 : ℚ)),
  ("rallied", (4/5 : ℚ)),
  ("rallying", (4/5 : ℚ)),
  ("boom", (4/5 : ℚ)),
  ("booming", (4/5 : ℚ)),
  ("booms", (4/5 : ℚ)),
  ("breakout", (3/4 : ℚ)),
  ("breakthrough", (4/5 : ℚ)),
  ("outperform", (7/10 : ℚ)),
  ("outperforms", (7/10 : ℚ)),
  ("outperformed", (7/10 : ℚ)),
  ("beat", (13/20 : ℚ)),
  ("beats", (13/20 : ℚ)),
  ("beating", (13/20 : ℚ)),
  ("exceed", (13/20 : ℚ)),
  ("exceeds", (13/20 : ℚ)),
  ("exceeded", (13/20 : ℚ)),
  ("exceeding", (13/20 : ℚ)),
  ("record", (3/5 : ℚ)),
  ("all-time high", (17/20 : ℚ)),
  ("bullish", (3/4 : ℚ)),
  ("upgrade", (7/10 : ℚ)),
  ("upgraded", (7/10 : ℚ)),
  ("upgrades", (7/10 : ℚ)),
  ("profit", (3/5 : ℚ)),
  ("profits", (3/5 : ℚ)),
  ("profitable", (13/20 : ℚ)),
  ("profitability", (3/5 : ℚ)),
  ("revenue growth", (7/10 : ℚ)),
  ("earnings beat", (3/4 : ℚ)),
  ("strong", (1/2 : ℚ)),
  ("strength", (1/2 : ℚ)),
  ("robust", (11/20 : ℚ)),
  ("optimistic", (3/5 : ℚ)),
  ("optimism", (3/5 : ℚ)),
  ("upbeat", (11/20 : ℚ)),
  ("momentum", (1/2 : ℚ)),
  ("accelerate", (3/5 : ℚ)),
  ("accelerates", (3/5 : ℚ)),
  ("accelerating", (3/5 : ℚ)),
  ("innovation", (1/2 : ℚ)),
  ("innovative", (1/2 : ℚ)),
  ("dividend", (2/5 : ℚ)),
  ("buyback", (1/2 : ℚ)),
  ("repurchase", (1/2 : ℚ)),
  ("expansion", (1/2 : ℚ)),
  ("expand", (9/20 : ℚ)),
  ("expands", (9/20 : ℚ)),
  ("expanding", (9/20 : ℚ)),
  ("recovery", (11/20 : ℚ)),
  ("recover", (1/2 : ℚ)),
  ("recovers", (1/2 : ℚ)),
  ("recovering", (1/2 : ℚ)),
  ("gain", (11/20 : ℚ)),
  ("gains", (11/20 : ℚ)),
  ("gained", (11/20 : ℚ)),
  ("gaining", (11/20 : ℚ)),
  ("jump", (3/5 : ℚ)),
  ("jumps", (3/5 : ℚ)),
  ("jumped", (3/5 : ℚ)),
  ("jumping", (3/5 : ℚ)),
  ("climb", (1/2 : ℚ)),
  ("climbs", (1/2 : ℚ)),
  ("climbed", (1/2 : ℚ)),
  ("climbing", (1/2 : ℚ)),
  ("rise", (1/2 : ℚ)),
  ("rises", (1/2 : ℚ)),
  ("rising", (1/2 : ℚ)),
  ("risen", (1/2 : ℚ)),
  ("up", (3/10 : ℚ)),
  ("higher", (7/20 : ℚ)),
  ("high", (1/4 : ℚ)),
  ("positive", (2/5 : ℚ)),
  ("growth", (1/2 : ℚ)),
  ("growing", (9/20 : ℚ)),
  ("grew", (9/20 : ℚ)),
  ("grow", (2/5 : ℚ)),
  ("boost", (11/20 : ℚ)),
  ("boosts", (11/20 : ℚ)),
  ("boosted", (11/20 : ℚ)),
  ("boosting", (11/20 : ℚ)),
  ("win", (1/2 : ℚ)),
  ("wins", (1/2 : ℚ)),
  ("winning", (1/2 : ℚ)),
  ("won", (1/2 : ℚ)),
  ("success", (11/20 : ℚ)),
  ("successful", (11/20 : ℚ)),
  ("demand", (2/5 : ℚ)),
  ("opportunity", (9/20 : ℚ)),
  ("opportunities", (9/20 : ℚ)),
  ("approval", (1/2 : ℚ)),
  ("approved", (11/20 : ℚ)),
  ("acquisition", (2/5 : ℚ)),
  ("acquire", (2/5 : ℚ)),
  ("acquires", (2/5 : ℚ)),
  ("acquired", (2/5 : ℚ)),
  ("merger", (7/20 : ℚ)),
  ("deal", (7/20 : ℚ)),
  ("partnership", (2/5 : ℚ)),
  ("stable", (1/4 : ℚ)),
  ("stability", (1/4 : ℚ)),
  ("steady", (1/4 : ℚ)),
  ("resilient", (7/20 : ℚ)),
  ("resilience", (7/20 : ℚ)),
  ("improve", (2/5 : ℚ)),
  ("improves", (2/5 : ℚ)),
  ("improved", (2/5 : ℚ)),
  ("improving", (2/5 : ℚ)),
  ("increase", (7/20 : ℚ)),
  ("increases", (7/20 : ℚ)),
  ("increased", (7/20 : ℚ)),
  ("increasing", (7/20 : ℚ)),
  ("launch", (7/20 : ℚ)),
  ("launches", (7/20 : ℚ)),
  ("launched", (7/20 : ℚ)),
  ("invest", (3/10 : ℚ)),
  ("investment", (3/10 : ℚ)),
  ("investing", (3/10 : ℚ)),
  ("confident", (2/5 : ℚ)),
  ("confidence", (2/5 : ℚ)),
  ("crash", (-9/10 : ℚ)),
  ("crashes", (-9/10 : ℚ)),
  ("crashed", (-9/10 : ℚ)),
  ("crashing", (-9/10 : ℚ)),
  ("plunge", (-17/20 : ℚ)),
  ("plunges", (-17/20 : ℚ)),
  ("plunged", (-17/20 : ℚ)),
  ("plunging", (-17/20 : ℚ)),
  ("collapse", (-17/20 : ℚ)),
  ("collapses", (-17/20 : ℚ)),
  ("collapsed", (-17/20 : ℚ)),
  ("tank", (-4/5 : ℚ)),
  ("tanks", (-4/5 : ℚ)),
  ("tanked", (-4/5 : ℚ)),
  ("tanking", (-4/5 : ℚ)),
  ("tumble", (-3/4 : ℚ)),
  ("tumbles", (-3/4 : ℚ)),
  ("tumbled", (-3/4 : ℚ)),
  ("tumbling", (-3/4 : ℚ)),
  ("plummet", (-17/20 : ℚ)),
  ("plummets", (-17/20 : ℚ)),
  ("plummeted", (-17/20 : ℚ)),
  ("selloff", (-7/10 : ℚ)),
  ("sell-off", (-7/10 : ℚ)),
  ("bearish", (-3/4 : ℚ)),
  ("bear market", (-4/5 : ℚ)),
  ("downgrade", (-7/10 : ℚ)),
  ("downgraded", (-7/10 : ℚ)),
  ("downgrades", (-7/10 : ℚ)),
  ("bankruptcy", (-19/20 : ℚ)),
  ("bankrupt", (-19/20 : ℚ)),
  ("default", (-4/5 : ℚ)),
  ("defaults", (-4/5 : ℚ)),
  ("defaulted", (-4/5 : ℚ)),
  ("recession", (-3/4 : ℚ)),
  ("recessionary", (-7/10 : ℚ)),
  ("layoff", (-3/5 : ℚ)),
  ("layoffs", (-13/20 : ℚ)),
  ("laid off", (-3/5 : ℚ)),
  ("loss", (-11/20 : ℚ)),
  ("losses", (-11/20 : ℚ)),
  ("miss", (-11/20 : ℚ)),
  ("misses", (-11/20 : ℚ)),
  ("missed", (-11/20 : ℚ)),
  ("missing", (-2/5 : ℚ)),
  ("fraud", (-9/10 : ℚ)),
  ("scandal", (-4/5 : ℚ)),
  ("investigation", (-1/2 : ℚ)),
  ("lawsuit", (-11/20 : ℚ)),
  ("litigation", (-1/2 : ℚ)),
  ("sued", (-11/20 : ℚ)),
  ("fine", (-9/20 : ℚ)),
  ("fined", (-1/2 : ℚ)),
  ("penalty", (-1/2 : ℚ)),
  ("penalties", (-1/2 : ℚ)),
  ("debt", (-7/20 : ℚ)),
  ("overvalued", (-11/20 : ℚ)),
  ("decline", (-1/2 : ℚ)),
  ("declines", (-1/2 : ℚ)),
  ("declined", (-1/2 : ℚ)),
  ("declining", (-1/2 : ℚ)),
  ("drop", (-1/2 : ℚ)),
  ("drops", (-1/2 : ℚ)),
  ("dropped", (-1/2 : ℚ)),
  ("dropping", (-1/2 : ℚ)),
  ("fall", (-1/2 : ℚ)),
  ("falls", (-1/2 : ℚ)),
  ("fell", (-1/2 : ℚ)),
  ("falling", (-1/2 : ℚ)),
  ("sink", (-3/5 : ℚ)),
  ("sinks", (-3/5 : ℚ)),
  ("sank", (-3/5 : ℚ)),
  ("sinking", (-3/5 : ℚ)),
  ("slide", (-1/2 : ℚ)),
  ("slides", (-1/2 : ℚ)),
  ("slid", (-1/2 : ℚ)),
  ("sliding", (-1/2 : ℚ)),
  ("slump", (-3/5 : ℚ)),
  ("slumps", (-3/5 : ℚ)),
  ("slumped", (-3/5 : ℚ)),
  ("slumping", (-3/5 : ℚ)),
  ("weak", (-9/20 : ℚ)),
  ("weakness", (-9/20 : ℚ)),
  ("weaken", (-9/20 : ℚ)),
  ("down", (-3/10 : ℚ)),
  ("lower", (-7/20 : ℚ)),
  ("low", (-1/4 : ℚ)),
  ("negative", (-2/5 : ℚ)),
  ("shrink", (-1/2 : ℚ)),
  ("shrinks", (-1/2 : ℚ)),
  ("shrank", (-1/2 : ℚ)),
  ("shrinking", (-1/2 : ℚ)),
  ("cut", (-2/5 : ℚ)),
  ("cuts", (-2/5 : ℚ)),
  ("cutting", (-2/5 : ℚ)),
  ("risk", (-3/10 : ℚ)),
  ("risks", (-3/10 : ℚ)),
  ("risky", (-7/20 : ℚ)),
  ("warning", (-1/2 : ℚ)),
  ("warn", (-1/2 : ℚ)),
  ("warns", (-1/2 : ℚ)),
  ("warned", (-1/2 : ℚ)),
  ("concern", (-7/20 : ℚ)),
  ("concerns", (-7/20 : ℚ)),
  ("concerned", (-7/20 : ℚ)),
  ("fear", (-9/20 : ℚ)),
  ("fears", (-9/20 : ℚ)),
  ("fearful", (-1/2 : ℚ)),
  ("uncertainty", (-2/5 : ℚ)),
  ("uncertain", (-2/5 : ℚ)),
  ("volatile", (-7/20 : ℚ)),
  ("volatility", (-7/20 : ℚ)),
  ("inflation", (-7/20 : ℚ)),
  ("inflationary", (-7/20 : ℚ)),
  ("tariff", (-2/5 : ℚ)),
  ("tariffs", (-2/5 : ℚ)),
  ("sanctions", (-9/20 : ℚ)),
  ("shortage", (-2/5 : ℚ)),
  ("shortages", (-2/5 : ℚ)),
  ("delay", (-7/20 : ℚ)),
  ("delayed", (-7/20 : ℚ)),
  ("delays", (-7/20 : ℚ)),
  ("recall", (-1/2 : ℚ)),
  ("recalls", (-1/2 : ℚ)),
  ("recalled", (-1/2 : ℚ)),
  ("shutdown", (-11/20 : ℚ)),
  ("closure", (-1/2 : ℚ)),
  ("close", (-1/5 : ℚ)),
  ("struggle", (-9/20 : ℚ)),
  ("struggles", (-9/20 : ℚ)),
  ("struggling", (-9/20 : ℚ)),
  ("disappoint", (-11/20 : ℚ)),
  ("disappoints", (-11/20 : ℚ)),
  ("disappointed", (-11/20 : ℚ)),
  ("disappointing", (-11/20 : ℚ)),
  ("underperform", (-11/20 : ℚ)),
  ("underperforms", (-11/20 : ℚ)),
  ("underperformed", (-11/20 : ℚ)),
  ("flat", (-1/20 : ℚ)),
  ("unchanged", (0 : ℚ)),
  ("mixed", (-1/20 : ℚ)),
  ("hold", (0 : ℚ)),
  ("maintain", (1/10 : ℚ)),
  ("maintains", (1/10 : ℚ)),
  ("report", (0 : ℚ)),
  ("reports", (0 : ℚ)),
  ("reported", (0 : ℚ)),
  ("announce", (1/10 : ℚ)),
  ("announces", (1/10 : ℚ)),
  ("announced", (1/10 : ℚ)),
  ("expect", (1/10 : ℚ)),
  ("expects", (1/10 : ℚ)),
  ("expected", (1/20 : ℚ)),
  ("rate hike", (-9/20 : ℚ)),
  ("rate cut", (1/2 : ℚ)),
  ("rate increase", (-2/5 : ℚ)),
  ("hawkish", (-2/5 : ℚ)),
  ("dovish", (2/5 : ℚ)),
  ("tighten", (-7/20 : ℚ)),
  ("tightening", (-7/20 : ℚ)),
  ("easing", (2/5 : ℚ)),
  ("stimulus", (9/20 : ℚ))
]

def NEGATION_WORDS : List String := [
  "not",
  "no",
  "never",
  "neither",
  "nobody",
  "nothing",
  "nowhere",
  "nor",
  "cannot",
  "can't",
  "won't",
  "don't",
  "doesn't",
  "didn't",
  "wasn't",
  "weren't",
  "isn't",
  "aren't",
  "wouldn't",
  "shouldn't",
  "couldn't",
  "hardly",
  "barely",
  "scarcely",
  "fail",
  "fails",
  "failed",
  "failing"
]

def INTENSIFIERS : List (String × ℚ) := [
  ("very", (13/10 : ℚ)),
  ("extremely", (3/2 : ℚ)),
  ("significantly", (7/5 : ℚ)),
  ("sharply", (7/5 : ℚ)),
  ("dramatically", (3/2 : ℚ)),
  ("massively", (3/2 : ℚ)),
  ("strongly", (13/10 : ℚ)),
  ("highly", (13/10 : ℚ)),
  ("deeply", (13/10 : ℚ)),
  ("substantially", (13/10 : ℚ)),
  ("considerably", (5/4 : ℚ)),
  ("slightly", (3/5 : ℚ)),
  ("marginally", (1/2 : ℚ)),
  ("somewhat", (7/10 : ℚ)),
  ("modestly", (7/10 : ℚ))
]

def COMPANY_ALIASES : List (String × String) := [
  ("apple", "AAPL"),
  ("iphone", "AAPL"),
  ("ipad", "AAPL"),
  ("macbook", "AAPL"),
  ("mac", "AAPL"),
  ("tim cook", "AAPL"),
  ("app store", "AAPL"),
  ("apple vision", "AAPL"),
  ("microsoft", "MSFT"),
  ("windows", "MSFT"),
  ("azure", "MSFT"),
  ("xbox", "MSFT"),
  ("satya nadella", "MSFT"),
  ("linkedin", "MSFT"),
  ("teams", "MSFT"),
  ("copilot", "MSFT"),
  ("bing", "MSFT"),
  ("openai", "MSFT"),
  ("google", "GOOGL"),
  ("alphabet", "GOOGL"),
  ("youtube", "GOOGL"),
  ("android", "GOOGL"),
  ("chrome", "GOOGL"),
  ("waymo", "GOOGL"),
  ("sundar pichai", "GOOGL"),
  ("deepmind", "GOOGL"),
  ("gemini ai", "GOOGL"),
  ("amazon", "AMZN"),
  ("aws", "AMZN"),
  ("prime", "AMZN"),
  ("alexa", "AMZN"),
  ("andy jassy", "AMZN"),
  ("whole foods", "AMZN"),
  ("nvidia", "NVDA"),
  ("geforce", "NVDA"),
  ("cuda", "NVDA"),
  ("jensen huang", "NVDA"),
  ("rtx", "NVDA"),
  ("meta", "META"),
  ("facebook", "META"),
  ("instagram", "META"),
  ("whatsapp", "META"),
  ("mark zuckerberg", "META"),
  ("zuckerberg", "META"),
  ("metaverse", "META"),
  ("threads app", "META"),
  ("tesla", "TSLA"),
  ("elon musk", "TSLA"),
  ("musk", "TSLA"),
  ("cybertruck", "TSLA"),
  ("model 3", "TSLA"),
  ("model y", "TSLA"),
  ("autopilot", "TSLA"),
  ("supercharger", "TSLA"),
  ("spacex", "TSLA"),
  ("netflix", "NFLX"),
  ("amd", "AMD"),
  ("advanced micro devices", "AMD"),
  ("radeon", "AMD"),
  ("ryzen", "AMD"),
  ("lisa su", "AMD"),
  ("epyc", "AMD"),
  ("intel", "INTC"),
  ("pat gelsinger", "INTC"),
  ("core ultra", "INTC"),
  ("paypal", "PYPL"),
  ("venmo", "PYPL"),
  ("adobe", "ADBE"),
  ("photoshop", "ADBE"),
  ("creative cloud", "ADBE"),
  ("cisco", "CSCO"),
  ("webex", "CSCO"),
  ("comcast", "CMCSA"),
  ("nbcuniversal", "CMCSA"),
  ("nbc", "CMCSA"),
  ("peacock", "CMCSA"),
  ("pepsico", "PEP"),
  ("pepsi", "PEP"),
  ("frito-lay", "PEP"),
  ("gatorade", "PEP"),
  ("costco", "COST"),
  ("t-mobile", "TMUS"),
  ("broadcom", "AVGO"),
  ("vmware", "AVGO"),
  ("texas instruments", "TXN"),
  ("qualcomm", "QCOM"),
  ("snapdragon", "QCOM"),
  ("jpmorgan", "JPM"),
  ("jp morgan", "JPM"),
  ("jamie dimon", "JPM"),
  ("chase", "JPM"),
  ("j.p. morgan", "JPM"),
  ("visa", "V"),
  ("johnson & johnson", "JNJ"),
  ("johnson and johnson", "JNJ"),
  ("j&j", "JNJ"),
  ("walmart", "WMT"),
  ("wal-mart", "WMT"),
  ("procter & gamble", "PG"),
  ("procter and gamble", "PG"),
  ("p&g", "PG"),
  ("mastercard", "MA"),
  ("unitedhealth", "UNH"),
  ("united health", "UNH"),
  ("unitedhealthcare", "UNH"),
  ("home depot", "HD"),
  ("disney", "DIS"),
  ("walt disney", "DIS"),
  ("disney+", "DIS"),
  ("disney plus", "DIS"),
  ("hulu", "DIS"),
  ("espn", "DIS"),
  ("bank of america", "BAC"),
  ("exxon", "XOM"),
  ("exxonmobil", "XOM"),
  ("exxon mobil", "XOM"),
  ("chevron", "CVX"),
  ("coca-cola", "KO"),
  ("coca cola", "KO"),
  ("coke", "KO"),
  ("pfizer", "PFE"),
  ("merck", "MRK"),
  ("keytruda", "MRK"),
  ("abbott", "ABT"),
  ("abbott labs", "ABT"),
  ("abbott laboratories", "ABT"),
  ("verizon", "VZ"),
  ("at&t", "T"),
  ("att", "T"),
  ("nike", "NKE"),
  ("jordan brand", "NKE"),
  ("mcdonald's", "MCD"),
  ("mcdonalds", "MCD"),
  ("mcdonald", "MCD")
]

def THEME_MAP : List (String × List (String × ℚ)) := [
  ("semiconductor", [("NVDA", (1 : ℚ)), ("AMD", (9/10 : ℚ)), ("INTC", (17/20 : ℚ)), ("AVGO", (4/5 : ℚ)), ("TXN", (7/10 : ℚ)), ("QCOM", (7/10 : ℚ))]),
  ("semiconductors", [("NVDA", (1 : ℚ)), ("AMD", (9/10 : ℚ)), ("INTC", (17/20 : ℚ)), ("AVGO", (4/5 : ℚ)), ("TXN", (7/10 : ℚ)), ("QCOM", (7/10 : ℚ))]),
  ("chip", [("NVDA", (9/10 : ℚ)), ("AMD", (17/20 : ℚ)), ("INTC", (17/20 : ℚ)), ("AVGO", (3/4 : ℚ)), ("TXN", (7/10 : ℚ)), ("QCOM", (7/10 : ℚ))]),
  ("chips", [("NVDA", (9/10 : ℚ)), ("AMD", (17/20 : ℚ)), ("INTC", (17/20 : ℚ)), ("AVGO", (3/4 : ℚ)), ("TXN", (7/10 : ℚ)), ("QCOM", (7/10 : ℚ))]),
  ("chipmaker", [("NVDA", (19/20 : ℚ)), ("AMD", (9/10 : ℚ)), ("INTC", (9/10 : ℚ)), ("AVGO", (4/5 : ℚ)), ("TXN", (3/4 : ℚ)), ("QCOM", (3/4 : ℚ))]),
  ("gpu", [("NVDA", (1 : ℚ)), ("AMD", (4/5 : ℚ)), ("INTC", (1/2 : ℚ))]),
  ("gpus", [("NVDA", (1 : ℚ)), ("AMD", (4/5 : ℚ)), ("INTC", (1/2 : ℚ))]),
  ("graphics card", [("NVDA", (1 : ℚ)), ("AMD", (4/5 : ℚ))]),
  ("microchip", [("NVDA", (4/5 : ℚ)), ("AMD", (4/5 : ℚ)), ("INTC", (17/20 : ℚ)), ("AVGO", (4/5 : ℚ)), ("TXN", (4/5 : ℚ)), ("QCOM", (3/4 : ℚ))]),
  ("microchips", [("NVDA", (4/5 : ℚ)), ("AMD", (4/5 : ℚ)), ("INTC", (17/20 : ℚ)), ("AVGO", (4/5 : ℚ)), ("TXN", (4/5 : ℚ)), ("QCOM", (3/4 : ℚ))]),
  ("processor", [("INTC", (9/10 : ℚ)), ("AMD", (9/10 : ℚ)), ("QCOM", (7/10 : ℚ)), ("NVDA", (3/5 : ℚ))]),
  ("processors", [("INTC", (9/10 : ℚ)), ("AMD", (9/10 : ℚ)), ("QCOM", (7/10 : ℚ)), ("NVDA", (3/5 : ℚ))]),
  ("cpu", [("INTC", (19/20 : ℚ)), ("AMD", (19/20 : ℚ))]),
  ("data center", [("NVDA", (9/10 : ℚ)), ("AMD", (7/10 : ℚ)), ("INTC", (3/5 : ℚ)), ("MSFT", (1/2 : ℚ)), ("AMZN", (1/2 : ℚ)), ("GOOGL", (2/5 : ℚ))]),
  ("artificial intelligence", [("NVDA", (19/20 : ℚ)), ("MSFT", (4/5 : ℚ)), ("GOOGL", (4/5 : ℚ)), ("META", (3/5 : ℚ)), ("AMD", (1/2 : ℚ)), ("AMZN", (1/2 : ℚ))]),
  ("ai", [("NVDA", (9/10 : ℚ)), ("MSFT", (4/5 : ℚ)), ("GOOGL", (4/5 : ℚ)), ("META", (3/5 : ℚ)), ("AMD", (1/2 : ℚ)), ("AMZN", (1/2 : ℚ))]),
  ("machine learning", [("NVDA", (17/20 : ℚ)), ("MSFT", (7/10 : ℚ)), ("GOOGL", (3/4 : ℚ)), ("META", (1/2 : ℚ)), ("AMZN", (1/2 : ℚ))]),
  ("large language model", [("NVDA", (4/5 : ℚ)), ("MSFT", (4/5 : ℚ)), ("GOOGL", (4/5 : ℚ)), ("META", (7/10 : ℚ))]),
  ("chatbot", [("MSFT", (7/10 : ℚ)), ("GOOGL", (7/10 : ℚ)), ("META", (1/2 : ℚ))]),
  ("generative ai", [("NVDA", (9/10 : ℚ)), ("MSFT", (4/5 : ℚ)), ("GOOGL", (4/5 : ℚ)), ("META", (3/5 : ℚ))]),
  ("cloud computing", [("AMZN", (9/10 : ℚ)), ("MSFT", (9/10 : ℚ)), ("GOOGL", (4/5 : ℚ))]),
  ("cloud", [("AMZN", (7/10 : ℚ)), ("MSFT", (7/10 : ℚ)), ("GOOGL", (3/5 : ℚ))]),
  ("saas", [("MSFT", (7/10 : ℚ)), ("ADBE", (7/10 : ℚ)), ("GOOGL", (1/2 : ℚ))]),
  ("electric vehicle", [("TSLA", (1 : ℚ))]),
  ("electric vehicles", [("TSLA", (1 : ℚ))]),
  ("ev", [("TSLA", (9/10 : ℚ))]),
  ("evs", [("TSLA", (9/10 : ℚ))]),
  ("battery", [("TSLA", (7/10 : ℚ))]),
  ("charging station", [("TSLA", (4/5 : ℚ))]),
  ("autonomous driving", [("TSLA", (4/5 : ℚ)), ("GOOGL", (1/2 : ℚ))]),
  ("self-driving", [("TSLA", (4/5 : ℚ)), ("GOOGL", (1/2 : ℚ))]),
  ("social media", [("META", (9/10 : ℚ)), ("GOOGL", (1/2 : ℚ))]),
  ("digital advertising", [("META", (4/5 : ℚ)), ("GOOGL", (17/20 : ℚ))]),
  ("online advertising", [("META", (4/5 : ℚ)), ("GOOGL", (17/20 : ℚ))]),
  ("ad revenue", [("META", (17/20 : ℚ)), ("GOOGL", (17/20 : ℚ))]),
  ("streaming", [("NFLX", (9/10 : ℚ)), ("DIS", (7/10 : ℚ)), ("AMZN", (2/5 : ℚ)), ("CMCSA", (2/5 : ℚ))]),
  ("box office", [("DIS", (7/10 : ℚ)), ("CMCSA", (1/2 : ℚ))]),
  ("subscriber", [("NFLX", (4/5 : ℚ)), ("DIS", (1/2 : ℚ)), ("TMUS", (2/5 : ℚ))]),
  ("subscribers", [("NFLX", (4/5 : ℚ)), ("DIS", (1/2 : ℚ)), ("TMUS", (2/5 : ℚ))]),
  ("e-commerce", [("AMZN", (9/10 : ℚ)), ("WMT", (1/2 : ℚ)), ("COST", (3/10 : ℚ))]),
  ("ecommerce", [("AMZN", (9/10 : ℚ)), ("WMT", (1/2 : ℚ)), ("COST", (3/10 : ℚ))]),
  ("online shopping", [("AMZN", (17/20 : ℚ)), ("WMT", (2/5 : ℚ))]),
  ("retail", [("WMT", (7/10 : ℚ)), ("COST", (3/5 : ℚ)), ("HD", (1/2 : ℚ)), ("NKE", (2/5 : ℚ)), ("MCD", (3/10 : ℚ))]),
  ("consumer spending", [("WMT", (3/5 : ℚ)), ("COST", (1/2 : ℚ)), ("HD", (1/2 : ℚ)), ("MCD", (2/5 : ℚ)), ("NKE", (2/5 : ℚ)), ("PG", (2/5 : ℚ))]),
  ("black friday", [("AMZN", (7/10 : ℚ)), ("WMT", (7/10 : ℚ)), ("COST", (1/2 : ℚ)), ("HD", (1/2 : ℚ))]),
  ("payment", [("V", (4/5 : ℚ)), ("MA", (4/5 : ℚ)), ("PYPL", (7/10 : ℚ))]),
  ("payments", [("V", (4/5 : ℚ)), ("MA", (4/5 : ℚ)), ("PYPL", (7/10 : ℚ))]),
  ("fintech", [("PYPL", (4/5 : ℚ)), ("V", (3/5 : ℚ)), ("MA", (3/5 : ℚ))]),
  ("credit card", [("V", (4/5 : ℚ)), ("MA", (4/5 : ℚ)), ("JPM", (1/2 : ℚ)), ("BAC", (2/5 : ℚ))]),
  ("digital payment", [("V", (7/10 : ℚ)), ("MA", (7/10 : ℚ)), ("PYPL", (4/5 : ℚ))]),
  ("banking", [("JPM", (9/10 : ℚ)), ("BAC", (17/20 : ℚ))]),
  ("bank", [("JPM", (7/10 : ℚ)), ("BAC", (7/10 : ℚ))]),
  ("interest rate", [("JPM", (7/10 : ℚ)), ("BAC", (7/10 : ℚ)), ("V", (3/10 : ℚ)), ("MA", (3/10 : ℚ))]),
  ("interest rates", [("JPM", (7/10 : ℚ)), ("BAC", (7/10 : ℚ)), ("V", (3/10 : ℚ)), ("MA", (3/10 : ℚ))]),
  ("federal reserve", [("JPM", (3/5 : ℚ)), ("BAC", (3/5 : ℚ))]),
  ("fed", [("JPM", (1/2 : ℚ)), ("BAC", (1/2 : ℚ))]),
  ("mortgage", [("JPM", (3/5 : ℚ)), ("BAC", (3/5 : ℚ))]),
  ("oil", [("XOM", (9/10 : ℚ)), ("CVX", (9/10 : ℚ))]),
  ("crude oil", [("XOM", (19/20 : ℚ)), ("CVX", (19/20 : ℚ))]),
  ("crude", [("XOM", (17/20 : ℚ)), ("CVX", (17/20 : ℚ))]),
  ("natural gas", [("XOM", (7/10 : ℚ)), ("CVX", (7/10 : ℚ))]),
  ("petroleum", [("XOM", (17/20 : ℚ)), ("CVX", (17/20 : ℚ))]),
  ("opec", [("XOM", (4/5 : ℚ)), ("CVX", (4/5 : ℚ))]),
  ("energy", [("XOM", (3/5 : ℚ)), ("CVX", (3/5 : ℚ))]),
  ("oil price", [("XOM", (9/10 : ℚ)), ("CVX", (9/10 : ℚ))]),
  ("gas price", [("XOM", (3/5 : ℚ)), ("CVX", (3/5 : ℚ))]),
  ("drilling", [("XOM", (7/10 : ℚ)), ("CVX", (7/10 : ℚ))]),
  ("refinery", [("XOM", (7/10 : ℚ)), ("CVX", (7/10 : ℚ))]),
  ("pharmaceutical", [("PFE", (4/5 : ℚ)), ("MRK", (4/5 : ℚ)), ("JNJ", (7/10 : ℚ)), ("ABT", (3/5 : ℚ))]),
  ("pharma", [("PFE", (4/5 : ℚ)), ("MRK", (4/5 : ℚ)), ("JNJ", (7/10 : ℚ)), ("ABT", (3/5 : ℚ))]),
  ("drug", [("PFE", (7/10 : ℚ)), ("MRK", (7/10 : ℚ)), ("JNJ", (3/5 : ℚ))]),
  ("fda", [("PFE", (7/10 : ℚ)), ("MRK", (7/10 : ℚ)), ("JNJ", (3/5 : ℚ)), ("ABT", (1/2 : ℚ))]),
  ("fda approval", [("PFE", (4/5 : ℚ)), ("MRK", (4/5 : ℚ)), ("JNJ", (7/10 : ℚ)), ("ABT", (3/5 : ℚ))]),
  ("vaccine", [("PFE", (9/10 : ℚ)), ("MRK", (3/5 : ℚ)), ("JNJ", (7/10 : ℚ))]),
  ("clinical trial", [("PFE", (7/10 : ℚ)), ("MRK", (7/10 : ℚ)), ("JNJ", (3/5 : ℚ)), ("ABT", (1/2 : ℚ))]),
  ("healthcare", [("UNH", (4/5 : ℚ)), ("JNJ", (3/5 : ℚ)), ("PFE", (1/2 : ℚ)), ("MRK", (1/2 : ℚ)), ("ABT", (3/5 : ℚ))]),
  ("health insurance", [("UNH", (9/10 : ℚ))]),
  ("medical device", [("ABT", (4/5 : ℚ)), ("JNJ", (3/5 : ℚ))]),
  ("5g", [("TMUS", (7/10 : ℚ)), ("VZ", (7/10 : ℚ)), ("T", (7/10 : ℚ)), ("QCOM", (3/5 : ℚ))]),
  ("telecom", [("VZ", (7/10 : ℚ)), ("T", (7/10 : ℚ)), ("TMUS", (7/10 : ℚ)), ("CSCO", (2/5 : ℚ))]),
  ("wireless", [("TMUS", (7/10 : ℚ)), ("VZ", (7/10 : ℚ)), ("T", (7/10 : ℚ))]),
  ("broadband", [("CMCSA", (7/10 : ℚ)), ("VZ", (3/5 : ℚ)), ("T", (3/5 : ℚ))]),
  ("network", [("CSCO", (3/5 : ℚ)), ("VZ", (2/5 : ℚ)), ("T", (2/5 : ℚ))]),
  ("consumer goods", [("PG", (7/10 : ℚ)), ("KO", (1/2 : ℚ)), ("PEP", (1/2 : ℚ))]),
  ("beverage", [("KO", (4/5 : ℚ)), ("PEP", (4/5 : ℚ))]),
  ("beverages", [("KO", (4/5 : ℚ)), ("PEP", (4/5 : ℚ))]),
  ("soft drink", [("KO", (4/5 : ℚ)), ("PEP", (7/10 : ℚ))]),
  ("snack", [("PEP", (7/10 : ℚ))]),
  ("fast food", [("MCD", (9/10 : ℚ))]),
  ("restaurant", [("MCD", (7/10 : ℚ))]),
  ("sportswear", [("NKE", (9/10 : ℚ))]),
  ("athletic", [("NKE", (7/10 : ℚ))]),
  ("sneaker", [("NKE", (4/5 : ℚ))]),
  ("home improvement", [("HD", (9/10 : ℚ))]),
  ("housing", [("HD", (3/5 : ℚ))]),
  ("cybersecurity", [("CSCO", (3/5 : ℚ)), ("MSFT", (2/5 : ℚ))]),
  ("data breach", [("CSCO", (2/5 : ℚ))]),
  ("hack", [("CSCO", (3/10 : ℚ))]),
  ("trade war", [("AAPL", (1/2 : ℚ)), ("NVDA", (1/2 : ℚ)), ("AMD", (2/5 : ℚ)), ("INTC", (2/5 : ℚ)), ("AVGO", (2/5 : ℚ))]),
  ("china", [("AAPL", (2/5 : ℚ)), ("NVDA", (1/2 : ℚ)), ("INTC", (3/10 : ℚ)), ("NKE", (3/10 : ℚ))]),
  ("supply chain", [("AAPL", (1/2 : ℚ)), ("NVDA", (2/5 : ℚ)), ("AMD", (3/10 : ℚ)), ("WMT", (3/10 : ℚ))]),
  ("rideshare", [("TSLA", (2/5 : ℚ))]),
  ("ride-hailing", [("TSLA", (2/5 : ℚ))]),
  ("ride hailing", [("TSLA", (2/5 : ℚ))]),
  ("robotaxi", [("TSLA", (4/5 : ℚ)), ("GOOGL", (7/10 : ℚ))]),
  ("robo taxi", [("TSLA", (4/5 : ℚ)), ("GOOGL", (7/10 : ℚ))]),
  ("robo-taxi", [("TSLA", (4/5 : ℚ)), ("GOOGL", (7/10 : ℚ))]),
  ("autonomous vehicle", [("TSLA", (17/20 : ℚ)), ("GOOGL", (7/10 : ℚ))]),
  ("autonomous vehicles", [("TSLA", (17/20 : ℚ)), ("GOOGL", (7/10 : ℚ))]),
  ("driverless", [("TSLA", (4/5 : ℚ)), ("GOOGL", (3/4 : ℚ))]),
  ("food delivery", [("AMZN", (3/10 : ℚ))]),
  ("gig economy", [("PYPL", (3/10 : ℚ))]),
  ("defense", [("INTC", (3/10 : ℚ))]),
  ("defense contract", [("INTC", (3/10 : ℚ))]),
  ("military", [("INTC", (3/10 : ℚ))]),
  ("aerospace", [("INTC", (1/5 : ℚ))]),
  ("aircraft", [("INTC", (1/5 : ℚ))]),
  ("cryptocurrency", [("PYPL", (3/10 : ℚ))]),
  ("crypto", [("PYPL", (3/10 : ℚ))]),
  ("bitcoin", [("PYPL", (3/10 : ℚ))]),
  ("blockchain", [("NVDA", (3/10 : ℚ))]),
  ("vacation rental", [("AMZN", (1/5 : ℚ))]),
  ("tourism", [("DIS", (2/5 : ℚ))]),
  ("electric truck", [("TSLA", (3/5 : ℚ))]),
  ("ev startup", [("TSLA", (2/5 : ℚ))]),
  ("luxury ev", [("TSLA", (1/2 : ℚ))]),
  ("electric pickup", [("TSLA", (2/5 : ℚ))]),
  ("construction", [("HD", (2/5 : ℚ))]),
  ("heavy equipment", [("HD", (3/10 : ℚ))]),
  ("agriculture", [("COST", (1/5 : ℚ))]),
  ("infrastructure", [("HD", (3/10 : ℚ))]),
  ("investment bank", [("JPM", (7/10 : ℚ))]),
  ("investment banking", [("JPM", (7/10 : ℚ))]),
  ("wall street", [("JPM", (1/2 : ℚ))]),
  ("wealth management", [("JPM", (2/5 : ℚ))]),
  ("sports betting", [("DIS", (1/5 : ℚ))]),
  ("online gaming", [("MSFT", (2/5 : ℚ)), ("NVDA", (2/5 : ℚ))]),
  ("video conferencing", [("MSFT", (1/2 : ℚ)), ("GOOGL", (2/5 : ℚ))]),
  ("remote work", [("MSFT", (1/2 : ℚ))])
]

def VALID_EXCHANGES : List String := [
  "NMS",
  "NGM",
  "NCM",
  "NYQ",
  "NYSE",
  "NASDAQ",
  "NasijdaqGS",
  "PCX"
]

/-! ## 4. Sentiment analyzer (`SentimentAnalyzer`) -/

/-- Result record of `SentimentAnalyzer.analyze`. -/
structure SentimentResult where
  sentiment : String
  score : ℚ
  confidence : ℚ
  word_hits : ℕ
deriving DecidableEq

/-- Key contains a space or a hyphen (multi-word lexicon entry test). -/
def hasSpaceOrHyphen (s : String) : Bool :=
  s.data.any (fun c => c = ' ' || c = '-')

namespace SentimentAnalyzer

/-- `self._multi_word`: lexicon entries whose key has a space or hyphen. -/
def multiWord (lexicon : List (String × ℚ)) : List (String × ℚ) :=
  lexicon.filter (fun kv => hasSpaceOrHyphen kv.1)

/-- `self._single_word`: lexicon entries whose key has neither. -/
def singleWord (lexicon : List (String × ℚ)) : List (String × ℚ) :=
  lexicon.filter (fun kv => !hasSpaceOrHyphen kv.1)

/-- The token scan with one-token lookahead: intensifier, then negation, then
plain single-word lexicon hit, advancing by two tokens after the first two. -/
def scanTokens (single : List (String × ℚ)) : ℕ → List (List Char) → List ℚ
  | _, [] => []
  | 0, _ => []
  | _ + 1, [t] =>
    match List.lookup (String.mk t) single with
    | some v => [v]
    | none => []
  | fuel + 1, t :: next :: rest =>
    let tok := String.mk t
    let ntok := String.mk next
    let inten := (List.lookup tok INTENSIFIERS).getD 1
    if inten ≠ 1 ∧ (List.lookup ntok single).isSome then
      (List.lookup ntok single).getD 0 * inten :: scanTokens single fuel rest
    else if tok ∈ NEGATION_WORDS ∧ (List.lookup ntok single).isSome then
      (List.lookup ntok single).getD 0 * (-3/4) :: scanTokens single fuel rest
    else
      match List.lookup tok single with
      | some v => v :: scanTokens single fuel (next :: rest)
      | none => scanTokens single fuel (next :: rest)

/-- `SentimentAnalyzer.analyze(text)`: multi-word substring counting first,
then the token scan; mean score rounded to 4 decimals, confidence from hit
count and magnitude clamped to [0.1, 1] and rounded to 3 decimals. -/
def analyze (lexicon : List (String × ℚ)) (text : String) : SentimentResult :=
  let textLower := pyLower text.data
  let phraseScores :=
    (multiWord lexicon).foldr
      (fun kv acc => List.replicate (countSub textLower kv.1.data) kv.2 ++ acc) []
  let tokens := tokenize textLower
  let scores := phraseScores ++ scanTokens (singleWord lexicon) tokens.length tokens
  if scores.isEmpty then
    ⟨"neutral", 0, 1/10, 0⟩
  else
    let avg := scores.sum / scores.length
    let hitConfidence := min 1 ((scores.length : ℚ) / 5)
    let magnitudeConfidence := min 1 (|avg| * 2)
    let confidence := pyRound (max (1/10) (min 1 (hitConfidence * (4/10) + magnitudeConfidence * (6/10)))) 3
    let label := if avg > 1/20 then "positive" else if avg < -(1/20) then "negative" else "neutral"
    ⟨label, pyRound avg 4, confidence, scores.length⟩

end SentimentAnalyzer

/-! ## 5. Company detector (`CompanyDetector`) -/

/-- Count of matches of `re.findall(rf'(?<![a-zA-Z]){TICKER}(?![a-zA-Z])', text)`:
positions where the all-letter pattern occurs with no ASCII letter on either
side.  Such matches can never overlap, so counting every valid position equals
the `findall` count.  `prev` is the character before the current position. -/
def countBoundaryAux (pat : List Char) : Option Char → List Char → ℕ
  | _, [] => 0
  | prev, c :: rest =>
    let prevOk := match prev with
      | none => true
      | some p => !isAsciiLetter p
    let afterOk := match (c :: rest).drop pat.length with
      | [] => true
      | d :: _ => !isAsciiLetter d
    (if prevOk && pat.isPrefixOf (c :: rest) && afterOk then 1 else 0) +
      countBoundaryAux pat (some c) rest

/-- Count of matches of `re.findall(rf'\${TICKER}\b', text)`: occurrences of
`$` followed by the ticker followed by a word boundary. -/
def countDollarAux (pat : List Char) : List Char → ℕ
  | [] => 0
  | c :: rest =>
    let afterOk := match (c :: rest).drop pat.length with
      | [] => true
      | d :: _ => !isWordChar d
    (if pat.isPrefixOf (c :: rest) && afterOk then 1 else 0) + countDollarAux pat rest

namespace CompanyDetector

/-- Tickers that are also common English words (require a `$` prefix). -/
def AMBIGUOUS_TICKERS : List String := ["T", "V", "HD"]

/-- The default tradeable universe (Python iterates this set; a set has a
fixed but arbitrary iteration order per run, modelled here as source order). -/
def DEFAULT_TRADEABLE : List String := [
  "AAPL", "MSFT", "GOOGL", "AMZN", "NVDA", "META", "TSLA", "NFLX",
  "AMD", "INTC", "PYPL", "ADBE", "CSCO", "CMCSA", "PEP", "COST",
  "TMUS", "AVGO", "TXN", "QCOM", "JPM", "V", "JNJ", "WMT", "PG",
  "MA", "UNH", "HD", "DIS", "BAC", "XOM", "CVX", "KO", "PFE",
  "MRK", "ABT", "VZ", "T", "NKE", "MCD"]

/-- Step 1 of `detect`: alias substring counting over the lowercased text. -/
def aliasHits (aliases : List (String × String)) (tradeable : List String)
    (textLower : List Char) : List (String × ℤ) :=
  aliases.foldl (fun hits kv =>
    if kv.2 ∈ tradeable then
      let count : ℕ := countSub textLower kv.1.data
      if count > 0 then dbump kv.2 count hits else hits
    else hits) []

/-- Step 2 of `detect`: direct symbol matching over the raw text (`$`-prefixed
for ambiguous tickers, letter-boundary matches otherwise). -/
def symbolHits (tradeable : List String) (text : List Char)
    (hits0 : List (String × ℤ)) : List (String × ℤ) :=
  tradeable.foldl (fun hits ticker =>
    let count : ℕ :=
      if ticker ∈ AMBIGUOUS_TICKERS then countDollarAux ('$' :: ticker.data) text
      else countBoundaryAux ticker.data none text
    if count > 0 then dbump ticker count hits else hits) hits0

/-- Hit counts from alias and symbol matching only (steps 1 and 2). -/
def baseHits (aliases : List (String × String)) (tradeable : List String)
    (text : String) : List (String × ℤ) :=
  symbolHits tradeable text.data (aliasHits aliases tradeable (pyLower text.data))

/-- Step 3 of `detect`: the dynamic-resolver pass.  `dyn` is the output of
`DynamicResolver.extract_and_resolve` on the text (a collaborator-backed
map ticker → relevance); each ticker not already hit receives the pseudo
hit-count `max(1, int(relevance * 3))`. -/
def detectHits (aliases : List (String × String)) (tradeable : List String)
    (dyn : List (String × ℚ)) (text : String) : List (String × ℤ) :=
  dyn.foldl (fun hits td =>
    if (List.lookup td.1 hits).isSome then hits
    else dset td.1 (max 1 (pyTrunc (td.2 * 3))) hits) (baseHits aliases tradeable text)

/-- `CompanyDetector.detect`: hit counts normalised to relevances in [0, 1]
by the maximum hit count, rounded to 3 decimals. -/
def detect (aliases : List (String × String)) (tradeable : List String)
    (dyn : List (String × ℚ)) (text : String) : List (String × ℚ) :=
  let hits := detectHits aliases tradeable dyn text
  if hits.isEmpty then []
  else
    let vals := hits.map (fun kv => kv.2)
    let maxHits : ℤ := vals.foldl max (vals.head?.getD 0)
    hits.map (fun kv => (kv.1, pyRound (min 1 ((kv.2 : ℚ) / ((max maxHits 1 : ℤ) : ℚ))) 3))

end CompanyDetector

/-! ## 6. Theme mapper (`ThemeMapper`) -/

/-- Ordered-dict max-update with float default 0.0
(`d[k] = max(d[k], w)` on a `defaultdict(float)`). -/
def dmaxQ (k : String) (w : ℚ) (d : List (String × ℚ)) : List (String × ℚ) :=
  match List.lookup k d with
  | some v => dset k (max v w) d
  | none => d ++ [(k, max 0 w)]

/-- Python substring containment (`pat in hay`). -/
def containsSub (hay pat : List Char) : Bool :=
  decide (0 < countSub hay pat)

namespace ThemeMapper

/-- `ThemeMapper.map_themes`: for each theme keyword contained in the
lowercased text, keep the maximum weight per tradeable ticker. -/
def mapThemes (themes : List (String × List (String × ℚ))) (tradeable : List String)
    (text : String) : List (String × ℚ) :=
  let textLower := pyLower text.data
  themes.foldl (fun acc kv =>
    if containsSub textLower kv.1.data then
      kv.2.foldl (fun acc2 (tw : String × ℚ) =>
        if tw.1 ∈ tradeable then dmaxQ tw.1 tw.2 acc2 else acc2) acc
    else acc) []

end ThemeMapper

/-! ## 5b. Dynamic resolver (`DynamicResolver`) and its cache -/

/-- Python whitespace characters stripped by `str.strip()` (ASCII). -/
def isPySpace (c : Char) : Bool :=
  c = ' ' || c = '\t' || c = '\n' || c = '\r' || c = '\x0b' || c = '\x0c'

/-- Python `str.strip()`. -/
def pyStrip (l : List Char) : List Char :=
  ((l.dropWhile isPySpace).reverse.dropWhile isPySpace).reverse

/-- Resolver cache TTL: 30 minutes, in seconds. -/
def RESOLVER_CACHE_TTL : ℚ := 30 * 60

namespace DynamicResolver

/-- First of the top-3 search quotes (symbol, exchange) whose exchange is in
the accepted-exchange allowlist and whose symbol is nonempty. -/
def firstValidQuote : List (String × String) → Option String
  | [] => none
  | (sym, exch) :: rest =>
    if exch ∈ VALID_EXCHANGES then
      if sym ≠ "" then some sym else firstValidQuote rest
    else firstValidQuote rest

/-- `DynamicResolver._lookup`: query the symbol-search collaborator (`search`;
`none` models a raised exception) and accept the first valid quote. -/
def lookupName (search : String → Option (List (String × String))) (name : String) :
    Option String :=
  match search name with
  | none => none
  | some quotes => firstValidQuote (quotes.take 3)

/-- `DynamicResolver.resolve`: serve a cached entry younger than the TTL,
otherwise look the name up and store the (possibly negative) result. -/
def resolve (search : String → Option (List (String × String)))
    (cache : List (String × (Option String × ℚ))) (now : ℚ) (name : String) :
    Option String × List (String × (Option String × ℚ)) :=
  let key := String.mk (pyStrip (pyLower name.data))
  match List.lookup key cache with
  | some (t, ts) =>
    if now - ts < RESOLVER_CACHE_TTL then (t, cache)
    else
      let t2 := lookupName search name
      (t2, dset key (t2, now) cache)
  | none =>
    let t2 := lookupName search name
    (t2, dset key (t2, now) cache)

end DynamicResolver

/-! ## 7. Exchange and price filter (`ExchangePriceFilter`) -/

/-- Price cache TTL: 2 minutes, in seconds. -/
def PRICE_CACHE_TTL : ℚ := 2 * 60

/-- Result of `ExchangePriceFilter.get_price_info`.  A cache hit returns no
exchange (the Python cache stores only the price); a fresh fetch carries the
exchange string reported by the quote collaborator. -/
inductive PriceInfo where
  | success (price : ℚ) (exchange : Option String)
  | failure
deriving DecidableEq

/-- The price carried by a `PriceInfo`, if any. -/
def PriceInfo.priceOf : PriceInfo → Option ℚ
  | .success p _ => some p
  | .failure => none

namespace ExchangePriceFilter

/-- Default minimum price (USD). -/
def MIN_PRICE : ℚ := 8

/-- `ExchangePriceFilter.get_price_info`: serve a fresh cache entry, else ask
the quote collaborator (`fetch`; `none` models an exception or missing price),
round the price to 2 decimals and cache it. -/
def getPriceInfo (fetch : String → Option (ℚ × String))
    (cache : List (String × (ℚ × ℚ))) (now : ℚ) (symbol : String) :
    PriceInfo × List (String × (ℚ × ℚ)) :=
  match List.lookup symbol cache with
  | some (price, ts) =>
    if now - ts < PRICE_CACHE_TTL then (.success price none, cache)
    else
      match fetch symbol with
      | none => (.failure, cache)
      | some (p, exch) =>
        let p2 := pyRound p 2
        (.success p2 (some exch), dset symbol (p2, now) cache)
  | none =>
    match fetch symbol with
    | none => (.failure, cache)
    | some (p, exch) =>
      let p2 := pyRound p 2
      (.success p2 (some exch), dset symbol (p2, now) cache)

/-- One step of the `filter` loop: look the price up through the cache and
keep the ticker unless the lookup failed or the price is below the minimum. -/
def filterStep (fetch : String → Option (ℚ × String)) (now : ℚ) (minPrice : ℚ)
    (acc : List (String × ℚ) × List (String × (ℚ × ℚ))) (symbol : String) :
    List (String × ℚ) × List (String × (ℚ × ℚ)) :=
  let r := getPriceInfo fetch acc.2 now symbol
  match r.1 with
  | .failure => (acc.1, r.2)
  | .success p _ => if p < minPrice then (acc.1, r.2) else (dset symbol p acc.1, r.2)

/-- `ExchangePriceFilter.filter`: per-ticker price lookup through the cache;
keep tickers whose price succeeded and is at least the minimum.  Returns the
surviving (ticker, price) map and the final cache. -/
def filter (fetch : String → Option (ℚ × String))
    (cache : List (String × (ℚ × ℚ))) (now : ℚ) (minPrice : ℚ)
    (tickers : List String) : List (String × ℚ) × List (String × (ℚ × ℚ)) :=
  tickers.foldl (filterStep fetch now minPrice) ([], cache)

end ExchangePriceFilter

/-! ## 8. Technical analyzer (`TechnicalAnalyzer`) -/

/-- Technical cache TTL: 10 minutes, in seconds. -/
def TA_CACHE_TTL : ℚ := 10 * 60

/-- Mean of the last `k` elements (`series.rolling(k).mean().iloc[-1]`,
meaningful when the list has at least `k` elements). -/
def rollingMeanLast (k : ℕ) (l : List ℚ) : ℚ :=
  (l.drop (l.length - k)).sum / (k : ℚ)

/-- Tail of the exponentially weighted mean recurrence
`y_t = (1 - a) * y_(t-1) + a * x_t`. -/
def ewmAux (a : ℚ) (y : ℚ) : List ℚ → List ℚ
  | [] => []
  | x :: rest =>
    let y2 := (1 - a) * y + a * x
    y2 :: ewmAux a y2 rest

/-- `series.ewm(span, adjust=False).mean()` as a list (`a = 2 / (span + 1)`,
seeded with the first element). -/
def ewmList (span : ℚ) : List ℚ → List ℚ
  | [] => []
  | x :: rest => x :: ewmAux (2 / (span + 1)) x rest

/-- `iloc[-1]` with default 0. -/
def lastD (l : List ℚ) : ℚ :=
  l.getLast?.getD 0

/-- `iloc[-2]` with default 0. -/
def secondLastD (l : List ℚ) : ℚ :=
  ((l.drop (l.length - 2)).head?.getD 0)

/-- Moving-average block of `TechnicalAnalyzer._compute_ma_signals`. -/
structure MASignals where
  sma_20 : ℚ
  sma_50 : Option ℚ
  ema_12 : ℚ
  price : ℚ
  price_above_sma20 : Bool
  price_above_sma50 : Bool
  sma20_above_sma50 : Bool
deriving DecidableEq

/-- MACD block of `TechnicalAnalyzer._compute_macd`. -/
structure MACDData where
  macd : ℚ
  signalLine : ℚ
  histogram : ℚ
  bullish_crossover : Bool
  bearish_crossover : Bool
deriving DecidableEq

/-- Volume block of `TechnicalAnalyzer._compute_volume_signal`
(`volumeRel` transcribes the source field `volume_ratio`). -/
structure VolumeData where
  volumeRel : ℚ
  avg_volume : ℚ
  current_volume : ℚ
deriving DecidableEq

/-- The nested `indicators` dict of a successful technical snapshot. -/
structure Indicators where
  rsi : ℚ
  sma_20 : ℚ
  sma_50 : Option ℚ
  ema_12 : ℚ
  price : ℚ
  price_above_sma20 : Bool
  price_above_sma50 : Bool
  sma20_above_sma50 : Bool
  macd : ℚ
  macd_signal : ℚ
  macd_histogram : ℚ
  macd_bullish_crossover : Bool
  macd_bearish_crossover : Bool
  roc : Option ℚ
  volumeRel : ℚ
  avg_volume : ℚ
  current_volume : ℚ
deriving DecidableEq

/-- A successful result of `TechnicalAnalyzer._compute`. -/
structure TASnapshot where
  symbol : String
  technical_score : ℚ
  technical_confidence : ℚ
  rsi : ℚ
  rsi_score : ℚ
  ma_score : ℚ
  macd_score : ℚ
  roc_score : ℚ
  volumeRel : ℚ
  indicators : Indicators
deriving DecidableEq

/-- Result of `TechnicalAnalyzer._compute` / `analyze`: a successful snapshot
or the failure dict carrying the symbol. -/
inductive TAResult where
  | success (snap : TASnapshot)
  | failure (symbol : String)
deriving DecidableEq

/-- Whether a `TAResult` is the success variant. -/
def TAResult.isSuccess : TAResult → Bool
  | .success _ => true
  | .failure _ => false

namespace TechnicalAnalyzer

/-- `_compute_rsi` (period 14): Wilder-style rolling means of gains/losses;
RSI 100 when the mean loss is below `1e-10`. -/
def computeRsi (closes : List ℚ) : Option ℚ :=
  if closes.length < 15 then none
  else
    let gains := (0 : ℚ) :: closes.zipWith (fun a b => if b - a > 0 then b - a else 0) closes.tail
    let losses := (0 : ℚ) :: closes.zipWith (fun a b => -(if b - a < 0 then b - a else 0)) closes.tail
    let lastGain := rollingMeanLast 14 gains
    let lastLoss := rollingMeanLast 14 losses
    if lastLoss < 1 / 10 ^ 10 then some 100
    else some (100 - 100 / (1 + lastGain / lastLoss))

/-- `_compute_ma_signals`: SMA-20, optional SMA-50, EMA-12 and comparisons. -/
def computeMaSignals (closes : List ℚ) : Option MASignals :=
  if closes.length < 20 then none
  else
    let sma20 := rollingMeanLast 20 closes
    let sma50 : Option ℚ := if closes.length ≥ 50 then some (rollingMeanLast 50 closes) else none
    let current := lastD closes
    some {
      sma_20 := sma20
      sma_50 := sma50
      ema_12 := lastD (ewmList 12 closes)
      price := current
      price_above_sma20 := decide (current > sma20)
      price_above_sma50 := match sma50 with
        | some s => decide (current > s)
        | none => true
      sma20_above_sma50 := match sma50 with
        | some s => decide (sma20 > s)
        | none => true }

/-- `_compute_macd`: EMA12 − EMA26 as the MACD line, EMA9 of it as the signal
line, histogram and both crossover flags from the last two points. -/
def computeMacd (closes : List ℚ) : Option MACDData :=
  if closes.length < 26 then none
  else
    let macdLine := (ewmList 12 closes).zipWith (fun a b => a - b) (ewmList 26 closes)
    let signalL := ewmList 9 macdLine
    let m1 := lastD macdLine
    let s1 := lastD signalL
    let m2 := secondLastD macdLine
    let s2 := secondLastD signalL
    some {
      macd := m1
      signalLine := s1
      histogram := m1 - s1
      bullish_crossover := decide (2 ≤ macdLine.length) && decide (m1 > s1) && decide (m2 ≤ s2)
      bearish_crossover := decide (2 ≤ macdLine.length) && decide (m1 < s1) && decide (m2 ≥ s2) }

/-- `_compute_volume_signal`: current volume over the 20-bar average volume
(the average floored at 1). -/
def computeVolumeSignal (volumes : List ℚ) : VolumeData :=
  if volumes.length < 20 then ⟨1, 0, 0⟩
  else
    let avgVol := rollingMeanLast 20 volumes
    let currentVol := lastD volumes
    ⟨currentVol / max avgVol 1, avgVol, currentVol⟩

/-- `_compute_roc` (period 10): percent change versus the close 10 bars ago;
undefined when that close is within `1e-10` of zero. -/
def computeRoc (closes : List ℚ) : Option ℚ :=
  if closes.length < 11 then none
  else
    let current := lastD closes
    let past := (closes.drop (closes.length - 11)).head?.getD 0
    if |past| < 1 / 10 ^ 10 then none
    else some ((current - past) / past * 100)

/-- `_score_rsi`: piecewise-linear RSI score. -/
def scoreRsi (rsi : ℚ) : ℚ :=
  if rsi ≤ 25 then 8/10 + 2/10 * (25 - rsi) / 25
  else if rsi ≤ 40 then 8/10 * (40 - rsi) / 15
  else if rsi ≤ 60 then 0
  else if rsi ≤ 75 then -(8/10) * (rsi - 60) / 15
  else -(8/10) - 2/10 * (rsi - 75) / 25

/-- `_score_roc`: `tanh(roc / 8)` clamped to [-1, 1]; `tanh` is the
floating-point `math.tanh` collaborator passed in as a function. -/
def scoreRoc (tanh : ℚ → ℚ) (roc : ℚ) : ℚ :=
  max (-1) (min 1 (tanh (roc / 8)))

/-- `_score_ma`: ±0.3/±0.3/±0.4 by the three comparisons, clamped. -/
def scoreMa (ma : MASignals) : ℚ :=
  max (-1) (min 1
    ((if ma.price_above_sma20 then (3:ℚ)/10 else -(3/10))
      + (if ma.price_above_sma50 then 3/10 else -(3/10))
      + (if ma.sma20_above_sma50 then 4/10 else -(4/10))))

/-- `_score_macd`: ±0.7 on a crossover, else ±0.3 by histogram sign. -/
def scoreMacd (m : MACDData) : ℚ :=
  if m.bullish_crossover then 7/10
  else if m.bearish_crossover then -(7/10)
  else if m.histogram > 0 then 3/10 else -(3/10)

/-- The arithmetic of a successful `_compute`: indicator scores, the volume
multiplier, the weighted composite clamped to [-1, 1], and the confidence
from agreement and signal strength. -/
def mkSnapshot (tanh : ℚ → ℚ) (symbol : String) (closes volumes : List ℚ)
    (rsi : ℚ) (ma : MASignals) (macd : MACDData) : TASnapshot :=
  let vol := computeVolumeSignal volumes
  let roc? := computeRoc closes
  let rsiScore := scoreRsi rsi
  let maScore := scoreMa ma
  let macdScore := scoreMacd macd
  let rocScore := match roc? with
    | some r => scoreRoc tanh r
    | none => 0
  let volRel := vol.volumeRel
  let volMultiplier :=
    if volRel > 3/2 then 1 + min (4/10) ((volRel - 1) * (2/10))
    else if volRel < 1/2 then 7/10
    else 1
  let rawScore := rsiScore * (25/100) + maScore * (30/100) + macdScore * (30/100) + rocScore * (15/100)
  let technicalScore := max (-1) (min 1 (rawScore * volMultiplier))
  let signs := [rsiScore, maScore, macdScore, rocScore]
  let agreement := ((signs.filter (fun s => s * rawScore > 0)).length : ℚ) / (signs.length : ℚ)
  let signalStrength := min 1 (|rawScore| * 2)
  let technicalConfidence := min 1 (3/10 + agreement * (4/10) + signalStrength * (3/10))
  { symbol := symbol
    technical_score := pyRound technicalScore 4
    technical_confidence := pyRound technicalConfidence 3
    rsi := pyRound rsi 2
    rsi_score := pyRound rsiScore 4
    ma_score := pyRound maScore 4
    macd_score := pyRound macdScore 4
    roc_score := pyRound rocScore 4
    volumeRel := pyRound volRel 2
    indicators := {
      rsi := pyRound rsi 2
      sma_20 := pyRound ma.sma_20 2
      sma_50 := ma.sma_50.map (fun s => pyRound s 2)
      ema_12 := pyRound ma.ema_12 2
      price := pyRound ma.price 2
      price_above_sma20 := ma.price_above_sma20
      price_above_sma50 := ma.price_above_sma50
      sma20_above_sma50 := ma.sma20_above_sma50
      macd := pyRound macd.macd 4
      macd_signal := pyRound macd.signalLine 4
      macd_histogram := pyRound macd.histogram 4
      macd_bullish_crossover := macd.bullish_crossover
      macd_bearish_crossover := macd.bearish_crossover
      roc := roc?.map (fun r => pyRound r 4)
      volumeRel := pyRound volRel 2
      avg_volume := vol.avg_volume
      current_volume := vol.current_volume } }

/-- `TechnicalAnalyzer._compute`: the history collaborator's bars (close,
volume), `none` for a failed fetch; fewer than 20 bars or a failed indicator
block yields the failure result. -/
def compute (tanh : ℚ → ℚ) (symbol : String) (hist : Option (List (ℚ × ℚ))) : TAResult :=
  match hist with
  | none => .failure symbol
  | some bars =>
    if bars.length < 20 then .failure symbol
    else
      let closes := bars.map Prod.fst
      let volumes := bars.map Prod.snd
      match computeRsi closes, computeMaSignals closes, computeMacd closes with
      | some rsi, some ma, some macd => .success (mkSnapshot tanh symbol closes volumes rsi ma macd)
      | _, _, _ => .failure symbol

/-- `TechnicalAnalyzer.analyze`: serve a cached result younger than the TTL,
else compute from the history collaborator and cache the result. -/
def analyze (tanh : ℚ → ℚ) (fetchHist : String → Option (List (ℚ × ℚ)))
    (cache : List (String × (TAResult × ℚ))) (now : ℚ) (symbol : String) :
    TAResult × List (String × (TAResult × ℚ)) :=
  match List.lookup symbol cache with
  | some (res, ts) =>
    if now - ts < TA_CACHE_TTL then (res, cache)
    else
      let r := compute tanh symbol (fetchHist symbol)
      (r, dset symbol (r, now) cache)
  | none =>
    let r := compute tanh symbol (fetchHist symbol)
    (r, dset symbol (r, now) cache)

end TechnicalAnalyzer

/-! ## 9. Signal generator (`SignalGenerator`) -/

/-- One entry of the `story_analyses` input consumed by the generator. -/
structure StoryAnalysis where
  sentiment_score : ℚ
  sentiment_confidence : ℚ
  tickers : List (String × ℚ)
  story_age_hours : ℚ
  story_snippet : String
deriving DecidableEq

/-- Per-ticker accumulator of `generate`. -/
structure TickerData where
  weighted_score_sum : ℚ
  weight_sum : ℚ
  confidence_sum : ℚ
  story_count : ℕ
  reasons : List String
deriving DecidableEq

/-- Recommendation action (named `TradeAction` to avoid clashing with
Mathlib's `Action`). -/
inductive TradeAction where
  | BUY
  | SELL
  | HOLD
deriving DecidableEq

/-- A recommendation as produced by `SignalGenerator.generate` (rounded
display fields, as in the source dict). -/
structure Recommendation where
  symbol : String
  action : TradeAction
  confidence : ℚ
  reason : String
  target_allocation_percent : ℤ
  aggregated_score : ℚ
  story_count : ℕ
  sentiment_score : ℚ
  technical_score : Option ℚ
  technical_indicators : Option Indicators
deriving DecidableEq

/-- A recommendation before display rounding: the blended score and combined
confidence exactly as compared against the action thresholds. -/
structure RawRec where
  symbol : String
  action : TradeAction
  confidence : ℚ
  aggScore : ℚ
  sentimentAgg : ℚ
  storyCount : ℕ
  reasons : List String
  ta : Option TASnapshot
deriving DecidableEq

/-- `str[:n]` for `String`. -/
def strTake (n : ℕ) (s : String) : String :=
  String.mk (s.data.take n)

namespace SignalGenerator

/-- `BUY_THRESHOLD`. -/
def BUY_THRESHOLD : ℚ := 15/100

/-- `SELL_THRESHOLD`. -/
def SELL_THRESHOLD : ℚ := -(15/100)

/-- `MIN_CONFIDENCE`. -/
def MIN_CONFIDENCE : ℚ := 3/10

/-- `SENTIMENT_WEIGHT`. -/
def SENTIMENT_WEIGHT : ℚ := 55/100

/-- `TECHNICAL_WEIGHT`. -/
def TECHNICAL_WEIGHT : ℚ := 45/100

/-- The per-ticker accumulation pass of `generate`.  `decayW` is the
time-decay weight function `self._time_decay_weight` (the floating-point
evaluation of `exp(-lambda * max(age, 0))`), passed in as a function; the
claims about `generate` hold for every decay function. -/
def buildTickerData (decayW : ℚ → ℚ) (analyses : List StoryAnalysis) :
    List (String × TickerData) :=
  analyses.foldl (fun td a =>
    let decay := decayW a.story_age_hours
    a.tickers.foldl (fun td (tr : String × ℚ) =>
      let cur := (List.lookup tr.1 td).getD ⟨0, 0, 0, 0, []⟩
      let combined := decay * tr.2 * a.sentiment_confidence
      dset tr.1
        { weighted_score_sum := cur.weighted_score_sum + a.sentiment_score * combined
          weight_sum := cur.weight_sum + combined
          confidence_sum := cur.confidence_sum + a.sentiment_confidence * tr.2
          story_count := cur.story_count + 1
          reasons := if a.story_snippet ≠ "" then cur.reasons ++ [strTake 80 a.story_snippet]
            else cur.reasons } td) td) []

/-- The per-ticker recommendation pass of `generate`, before display
rounding: drop weight sums below 0.01, aggregate, optionally blend with the
technical snapshot, and decide the action by the thresholds. -/
def rawRecsFrom (technicalScores : List (String × TASnapshot)) :
    List (String × TickerData) → List RawRec
  | [] => []
  | kv :: rest =>
    let td := kv.2
    if td.weight_sum < 1/100 then rawRecsFrom technicalScores rest
    else
      let sentimentAgg := td.weighted_score_sum / td.weight_sum
      let avgConfidence := td.confidence_sum / (td.story_count : ℚ)
      let sentimentConfidence := min 1 (avgConfidence * min 1 ((td.story_count : ℚ) / 3))
      let taOpt := List.lookup kv.1 technicalScores
      let aggScore := match taOpt with
        | some ta => sentimentAgg * SENTIMENT_WEIGHT + ta.technical_score * TECHNICAL_WEIGHT
        | none => sentimentAgg
      let combinedConfidence := match taOpt with
        | some ta => sentimentConfidence * SENTIMENT_WEIGHT + ta.technical_confidence * TECHNICAL_WEIGHT
        | none => sentimentConfidence
      let action :=
        if aggScore > BUY_THRESHOLD ∧ combinedConfidence ≥ MIN_CONFIDENCE then TradeAction.BUY
        else if aggScore < SELL_THRESHOLD ∧ combinedConfidence ≥ MIN_CONFIDENCE then TradeAction.SELL
        else TradeAction.HOLD
      { symbol := kv.1, action := action, confidence := combinedConfidence,
        aggScore := aggScore, sentimentAgg := sentimentAgg, storyCount := td.story_count,
        reasons := td.reasons, ta := taOpt } :: rawRecsFrom technicalScores rest

/-- The per-ticker recommendation pass of `generate` applied to the
accumulated ticker data. -/
def rawRecs (decayW : ℚ → ℚ) (analyses : List StoryAnalysis)
    (technicalScores : List (String × TASnapshot)) : List RawRec :=
  rawRecsFrom technicalScores (buildTickerData decayW analyses)

/-- The reason text: first three snippets joined, with a `(+n more)` tail. -/
def reasonText (reasons : List String) : String :=
  let base := String.intercalate "; " (reasons.take 3)
  if reasons.length > 3 then base ++ " (+" ++ toString (reasons.length - 3) ++ " more)"
  else base

/-- `_position_size`: `max(1, min(20, int(round(confidence * |score| * 30))))`. -/
def positionSize (confidence absScore : ℚ) : ℤ :=
  max 1 (min 20 (roundHalfEven (confidence * absScore * 30)))

/-- Display rounding of a raw recommendation into the output dict. -/
def finalize (r : RawRec) : Recommendation :=
  { symbol := r.symbol
    action := r.action
    confidence := pyRound r.confidence 3
    reason := reasonText r.reasons
    target_allocation_percent := positionSize r.confidence |r.aggScore|
    aggregated_score := pyRound r.aggScore 4
    story_count := r.storyCount
    sentiment_score := pyRound r.sentimentAgg 4
    technical_score := r.ta.map (fun ta => pyRound ta.technical_score 4)
    technical_indicators := r.ta.map (fun ta => ta.indicators) }

/-- The recommendation list before the final sort. -/
def preSortRecs (decayW : ℚ → ℚ) (analyses : List StoryAnalysis)
    (technicalScores : List (String × TASnapshot)) : List Recommendation :=
  (rawRecs decayW analyses technicalScores).map finalize

/-- `action_order`. -/
def actionOrder : TradeAction → ℕ
  | .BUY => 0
  | .SELL => 1
  | .HOLD => 2

/-- The sort relation of `generate`: ascending by
`(action_order, -confidence)`; a stable sort under this relation is exactly
Python `list.sort(key=lambda r: (action_order[r.action], -r.confidence))`. -/
def recLE (x y : Recommendation) : Prop :=
  actionOrder x.action < actionOrder y.action ∨
    (actionOrder x.action = actionOrder y.action ∧ y.confidence ≤ x.confidence)

instance : DecidableRel recLE := fun x y => by
  unfold recLE
  infer_instance

/-- `SignalGenerator.generate` (the unused `now` parameter of the source is
omitted): aggregate, recommend, and stable-sort actionable first then by
descending confidence. -/
def generate (decayW : ℚ → ℚ) (analyses : List StoryAnalysis)
    (technicalScores : List (String × TASnapshot)) : List Recommendation :=
  List.insertionSort recLE (preSortRecs decayW analyses technicalScores)

/-- `self._lambda = log(2) / max(decay_half_life, 0.1)`, over `ℝ`. -/
noncomputable def lambdaFor (halfLife : ℚ) : ℝ :=
  Real.log 2 / ((max halfLife (1/10) : ℚ) : ℝ)

/-- `_time_decay_weight`: `exp(-lambda * max(age, 0))`, over `ℝ` (the
idealised real-number semantics of the floating-point source). -/
noncomputable def timeDecayWeight (halfLife : ℚ) (age : ℝ) : ℝ :=
  Real.exp (-(lambdaFor halfLife) * max age 0)

end SignalGenerator

/-! ## 10. Engine orchestrator (`LocalTradingEngine`) -/

/-- A story input (absent dict keys are the empty string). -/
structure Story where
  text : String
  title : String
  summary : String
  published : String
deriving DecidableEq

/-- Per-story diagnostic trace entry (`story_details`). -/
structure StoryDetail where
  snippet : String
  sentiment : String
  sentiment_score : ℚ
  sentiment_confidence : ℚ
  word_hits : ℕ
  companies_detected : List (String × ℚ)
  themes_matched : List (String × ℚ)
  combined_tickers : List (String × ℚ)
  age_hours : ℚ
deriving DecidableEq

/-- The result dict of `LocalTradingEngine.analyze_stories` (`timestampQ`
carries the raw `now` value whose ISO rendering the source stores). -/
structure EngineResult where
  success : Bool
  analysis_summary : String
  recommendations : List Recommendation
  story_details : List StoryDetail
  timestampQ : ℚ
  provider : String
  model : String
  stories_analyzed : ℕ
  tickers_detected : ℕ
deriving DecidableEq

/-- Python `s.strip(". ")`: strip dots and spaces from both ends. -/
def stripDotSpace (s : String) : String :=
  let isDS := fun c => c = '.' || c = ' '
  String.mk (((s.data.dropWhile isDS).reverse.dropWhile isDS).reverse)

namespace LocalTradingEngine

/-- `LocalTradingEngine._parse_age_hours`: empty string → 1 hour; otherwise
parse via the ordered format list (`parseDate` models the
`datetime.strptime` standard-library collaborator over those formats,
returning the parsed timestamp in seconds, tz info discarded) and clamp the
age at 0; unparseable → 1 hour. -/
def parseAgeHours (parseDate : String → Option ℚ) (published : String) (now : ℚ) : ℚ :=
  if published = "" then 1
  else
    match parseDate published with
    | some dt => max 0 ((now - dt) / 3600)
    | none => 1

/-- Step 1 of `analyze_stories`: per-story sentiment, detection, theme
mapping, merge, age; returns the signal inputs, the full trace, and the
union of candidate tickers with their maximal relevance. -/
def step1 (lexicon : List (String × ℚ)) (aliases : List (String × String))
    (themes : List (String × List (String × ℚ))) (tradeable : List String)
    (dynResolve : String → List (String × ℚ)) (parseDate : String → Option ℚ)
    (now : ℚ) (stories : List Story) :
    List StoryAnalysis × List StoryDetail × List (String × ℚ) :=
  stories.foldl (fun acc story =>
    let text0 := story.text
    let text := if text0 = "" then stripDotSpace (story.title ++ ". " ++ story.summary) else text0
    if text = "" then acc
    else
      let sent := SentimentAnalyzer.analyze lexicon text
      let detected := CompanyDetector.detect aliases tradeable (dynResolve text) text
      let themed := ThemeMapper.mapThemes themes tradeable text
      let combined := themed.foldl
        (fun c (tr : String × ℚ) =>
          dset tr.1 (min 1 ((List.lookup tr.1 c).getD 0 + tr.2 * (6/10))) c) detected
      let age := parseAgeHours parseDate story.published now
      let detail : StoryDetail :=
        { snippet := strTake 120 text
          sentiment := sent.sentiment
          sentiment_score := sent.score
          sentiment_confidence := sent.confidence
          word_hits := sent.word_hits
          companies_detected := detected
          themes_matched := themed
          combined_tickers := combined
          age_hours := pyRound age 1 }
      let details2 := acc.2.1 ++ [detail]
      if combined.isEmpty then (acc.1, details2, acc.2.2)
      else
        let analysis : StoryAnalysis :=
          { sentiment_score := sent.score
            sentiment_confidence := sent.confidence
            tickers := combined
            story_age_hours := age
            story_snippet := strTake 100 text }
        let allT2 := combined.foldl (fun m (tr : String × ℚ) => dmaxQ tr.1 tr.2 m) acc.2.2
        (acc.1 ++ [analysis], details2, allT2))
    ([], [], [])

/-- The technical-analysis note of the summary sentence. -/
def taNoteText (n : ℕ) : String :=
  if n = 0 then "" else " Technical analysis applied to " ++ toString n ++ " tickers."

/-- The summary sentence of a run that reached the signal stage
(`nTickers` is the number of tickers surviving the price filter). -/
def summaryText (nStories nTickers nTA buyCount sellCount : ℕ) (bias : String) : String :=
  "Analyzed " ++ toString nStories ++ " stories, detected " ++ toString nTickers ++
    " tradeable tickers." ++ taNoteText nTA ++ " Overall bias is " ++ bias ++ " with " ++
    toString buyCount ++ " BUY and " ++ toString sellCount ++ " SELL signals."

/-- `LocalTradingEngine.analyze_stories`: the full pipeline.  External
collaborators are parameters: `dynResolve` (resolver pass per text),
`parseDate` (strptime), `decayW` (float `exp` decay), `tanh` (float tanh),
`priceFetch` (quote lookup), `histFetch` (price history); `priceCache` and
`taCache` are the module-level caches threaded through the run. -/
def analyzeStories (lexicon : List (String × ℚ)) (aliases : List (String × String))
    (themes : List (String × List (String × ℚ))) (tradeable : List String)
    (dynResolve : String → List (String × ℚ)) (parseDate : String → Option ℚ)
    (decayW : ℚ → ℚ) (tanh : ℚ → ℚ)
    (priceFetch : String → Option (ℚ × String)) (histFetch : String → Option (List (ℚ × ℚ)))
    (priceCache : List (String × (ℚ × ℚ))) (taCache : List (String × (TAResult × ℚ)))
    (minPrice : ℚ) (now : ℚ) (filterHold : Bool) (maxRecommendations : ℕ)
    (stories : List Story) : EngineResult :=
  let s1 := step1 lexicon aliases themes tradeable dynResolve parseDate now stories
  let storyAnalyses := s1.1
  let storyDetails := s1.2.1
  let allTickers := s1.2.2
  if storyAnalyses.isEmpty then
    { success := true
      analysis_summary := "No actionable stories found in the current news feed."
      recommendations := []
      story_details := storyDetails
      timestampQ := now
      provider := "local_nlp"
      model := "financial_lexicon_v1"
      stories_analyzed := stories.length
      tickers_detected := 0 }
  else
    let candidates := allTickers.map (fun kv => kv.1)
    let validPrices := (ExchangePriceFilter.filter priceFetch priceCache now minPrice candidates).1
    let filteredAnalyses :=
      (storyAnalyses.map (fun a =>
        { a with tickers := a.tickers.filter (fun tr => (List.lookup tr.1 validPrices).isSome) })).filter
        (fun a => !a.tickers.isEmpty)
    let technicalScores := (validPrices.foldl
      (fun (acc : List (String × TASnapshot) × List (String × (TAResult × ℚ))) kv =>
        let r := TechnicalAnalyzer.analyze tanh histFetch acc.2 now kv.1
        match r.1 with
        | .success snap => (acc.1 ++ [(kv.1, snap)], r.2)
        | .failure _ => (acc.1, r.2)) ([], taCache)).1
    let rawList := SignalGenerator.generate decayW filteredAnalyses technicalScores
    let rawList2 := if filterHold then rawList.filter (fun r => r.action ≠ .HOLD) else rawList
    let recommendations := rawList2.take maxRecommendations
    let buyCount := (recommendations.filter (fun r => r.action = .BUY)).length
    let sellCount := (recommendations.filter (fun r => r.action = .SELL)).length
    let bias := if buyCount > sellCount then "bullish"
      else if sellCount > buyCount then "bearish" else "mixed"
    { success := true
      analysis_summary := summaryText stories.length validPrices.length technicalScores.length
        buyCount sellCount bias
      recommendations := recommendations
      story_details := storyDetails
      timestampQ := now
      provider := "local_nlp"
      model := "financial_lexicon_v1"
      stories_analyzed := stories.length
      tickers_detected := validPrices.length }

end LocalTradingEngine

/-! ## Claim theorems -/

/-- C1 (code bug): `SentimentAnalyzer.analyze` promises a score in [-1, 1]
(its own docstring and the spec invariant), but the intensifier path
multiplies a lexicon score by up to 1.5 without clamping: on the text
"extremely bankrupt" the single contribution is `-0.95 * 1.5 = -1.425`, so
the returned score is `-1.425 < -1`, outside the documented interval. -/
theorem C1_score_escapes_unit_interval :
    (SentimentAnalyzer.analyze FINANCIAL_LEXICON "extremely bankrupt").score = -57/40 ∧
      (SentimentAnalyzer.analyze FINANCIAL_LEXICON "extremely bankrupt").score < -1 := by
  constructor
  · with_unfolding_all decide
  · with_unfolding_all decide

/-- C4 (counterexample): the claim says the text "earnings beat", exactly one
multi-word lexicon phrase, yields `word_hits = 1`; in fact the phrase match
(0.75) and the constituent single-word entry "beat" (0.65) both contribute,
so `word_hits = 2`. -/
theorem C4_counterexample :
    (SentimentAnalyzer.analyze FINANCIAL_LEXICON "earnings beat").word_hits = 2 ∧
      (SentimentAnalyzer.analyze FINANCIAL_LEXICON "earnings beat").word_hits ≠ 1 := by
  constructor
  · with_unfolding_all decide
  · with_unfolding_all decide

/-- C4 (amended): a single occurrence of a multi-word lexicon phrase
contributes its base score once, but a constituent token that is itself a
single-word lexicon entry contributes again in the token scan: "earnings
beat" yields two contributions (0.75 and 0.65), hence `word_hits = 2`,
score `0.7` and confidence `0.76`. -/
theorem C4_earnings_beat_two_hits :
    SentimentAnalyzer.analyze FINANCIAL_LEXICON "earnings beat" =
      ⟨"positive", 7/10, 19/25, 2⟩ := by
  with_unfolding_all decide

/-- C3 (counterexample): in `CompanyDetector.detect` the dynamic-resolver
pseudo hit-count uses Python `int` (truncation), not `round`: on the text
"Apple soars" with resolver output `UBER ↦ 0.9`, the assigned pseudo
hit-count is `max(1, int(2.7)) = 2`, while the claimed formula gives
`max(1, round(2.7)) = 3`. -/
theorem C3_counterexample :
    List.lookup "UBER"
        (CompanyDetector.detectHits COMPANY_ALIASES CompanyDetector.DEFAULT_TRADEABLE
          [("UBER", 9/10)] "Apple soars") = some 2 ∧
      max 1 (roundHalfEven ((9/10 : ℚ) * 3)) = 3 ∧ (2 : ℤ) ≠ 3 := by
  refine ⟨?_, ?_, ?_⟩
  · with_unfolding_all decide
  · with_unfolding_all decide
  · decide

/-- C2 (counterexample): the claim says `TechnicalAnalyzer` succeeds whenever
the fetched history has at least 20 daily bars; a 20-bar history fails,
because the MACD block requires 26 bars. -/
theorem C2_counterexample :
    (TechnicalAnalyzer.compute (fun _ => 0) "X"
        (some (List.replicate 20 ((5:ℚ), (100:ℚ))))).isSuccess = false ∧
      (List.replicate 20 ((5:ℚ), (100:ℚ))).length = 20 := by
  constructor
  · with_unfolding_all decide
  · decide

/-- C6 (counterexample): the decay weight is not strictly decreasing over
every pair of ages `age1 < age2`: ages are clamped at 0, so both `-2` and
`-1` give weight `exp(0) = 1`. -/
theorem C6_counterexample :
    ((-2 : ℝ) < -1) ∧
      SignalGenerator.timeDecayWeight 6 (-2) = SignalGenerator.timeDecayWeight 6 (-1) := by
  constructor
  · norm_num
  · unfold SignalGenerator.timeDecayWeight
    rw [max_eq_right (by norm_num : (-2 : ℝ) ≤ 0), max_eq_right (by norm_num : (-1 : ℝ) ≤ 0)]

/-- C6 (amended): restricted to the clamped domain the decay law is strictly
decreasing: for `0 ≤ age1 < age2` the weight at `age2` is strictly smaller,
for every half-life (the source clamps the half-life at 0.1, keeping the
rate positive). -/
theorem C6_decay_strict_antitone_nonneg (halfLife : ℚ) (age1 age2 : ℝ)
    (h0 : 0 ≤ age1) (h12 : age1 < age2) :
    SignalGenerator.timeDecayWeight halfLife age2 < SignalGenerator.timeDecayWeight halfLife age1 := by
  have hlam : 0 < SignalGenerator.lambdaFor halfLife := by
    unfold SignalGenerator.lambdaFor
    apply div_pos (Real.log_pos (by norm_num))
    have h1 : (1/10 : ℚ) ≤ max halfLife (1/10) := le_max_right _ _
    have h2 : (0 : ℚ) < max halfLife (1/10) := lt_of_lt_of_le (by norm_num) h1
    exact_mod_cast h2
  unfold SignalGenerator.timeDecayWeight
  apply Real.exp_lt_exp.mpr
  rw [max_eq_left h0, max_eq_left (le_of_lt (lt_of_le_of_lt h0 h12))]
  exact mul_lt_mul_of_neg_left h12 (neg_neg_of_pos hlam)

/-- C6 (witness): the amended monotonicity at the concrete ages 0 and 1. -/
theorem C6_witness :
    SignalGenerator.timeDecayWeight 6 1 < SignalGenerator.timeDecayWeight 6 0 :=
  C6_decay_strict_antitone_nonneg 6 0 1 (le_refl 0) zero_lt_one

/-- Helper: `computeRsi` is defined exactly on histories of length ≥ 15. -/
theorem computeRsi_isSome_iff (closes : List ℚ) :
    (TechnicalAnalyzer.computeRsi closes).isSome = true ↔ 15 ≤ closes.length := by
  unfold TechnicalAnalyzer.computeRsi
  by_cases h : closes.length < 15
  · rw [if_pos h]; simp; omega
  · rw [if_neg h]
    dsimp only
    constructor
    · intro
      omega
    · intro
      split <;> rfl

/-- Helper: `computeMaSignals` is defined exactly on histories of length ≥ 20. -/
theorem computeMaSignals_isSome_iff (closes : List ℚ) :
    (TechnicalAnalyzer.computeMaSignals closes).isSome = true ↔ 20 ≤ closes.length := by
  unfold TechnicalAnalyzer.computeMaSignals
  by_cases h : closes.length < 20
  · rw [if_pos h]; simp; omega
  · rw [if_neg h]; simp; omega

/-- Helper: `computeMacd` is defined exactly on histories of length ≥ 26. -/
theorem computeMacd_isSome_iff (closes : List ℚ) :
    (TechnicalAnalyzer.computeMacd closes).isSome = true ↔ 26 ≤ closes.length := by
  unfold TechnicalAnalyzer.computeMacd
  by_cases h : closes.length < 26
  · rw [if_pos h]; simp; omega
  · rw [if_neg h]; simp; omega

/-- C2 (amended): `TechnicalAnalyzer._compute` succeeds exactly when the
history fetch returned bars and there are at least 26 of them (the MACD
window), for any `tanh` collaborator and symbol; with 20–25 bars the MACD
block is undefined and the result is the failure dict. -/
theorem C2_success_iff_26_bars (tanh : ℚ → ℚ) (symbol : String)
    (hist : Option (List (ℚ × ℚ))) :
    (TechnicalAnalyzer.compute tanh symbol hist).isSuccess = true ↔
      ∃ bars, hist = some bars ∧ 26 ≤ bars.length := by
  cases hist with
  | none => simp [TechnicalAnalyzer.compute, TAResult.isSuccess]
  | some bars =>
    simp only [TechnicalAnalyzer.compute]
    have hlen : (bars.map Prod.fst).length = bars.length := List.length_map _ _
    by_cases h20 : bars.length < 20
    · rw [if_pos h20]
      simp only [TAResult.isSuccess, Bool.false_eq_true, false_iff]
      rintro ⟨bars2, heq, hge⟩
      cases heq
      omega
    · rw [if_neg h20]
      by_cases h26 : 26 ≤ bars.length
      · have hr : (TechnicalAnalyzer.computeRsi (bars.map Prod.fst)).isSome = true := by
          rw [computeRsi_isSome_iff]; omega
        have hm : (TechnicalAnalyzer.computeMaSignals (bars.map Prod.fst)).isSome = true := by
          rw [computeMaSignals_isSome_iff]; omega
        have hc : (TechnicalAnalyzer.computeMacd (bars.map Prod.fst)).isSome = true := by
          rw [computeMacd_isSome_iff]; omega
        obtain ⟨rsi, hr⟩ := Option.isSome_iff_exists.mp hr
        obtain ⟨ma, hm⟩ := Option.isSome_iff_exists.mp hm
        obtain ⟨mc, hc⟩ := Option.isSome_iff_exists.mp hc
        rw [hr, hm, hc]
        simp only [TAResult.isSuccess, true_iff]
        exact ⟨bars, rfl, h26⟩
      · have hc : (TechnicalAnalyzer.computeMacd (bars.map Prod.fst)) = none := by
          rcases hmc : TechnicalAnalyzer.computeMacd (bars.map Prod.fst) with _ | v
          · rfl
          · have := (computeMacd_isSome_iff (bars.map Prod.fst)).mp (by rw [hmc]; rfl)
            omega
        rw [hc]
        rcases TechnicalAnalyzer.computeRsi (bars.map Prod.fst) with _ | rsi <;>
          rcases TechnicalAnalyzer.computeMaSignals (bars.map Prod.fst) with _ | ma <;>
          · simp only [TAResult.isSuccess, Bool.false_eq_true, false_iff]
            rintro ⟨bars2, heq, hge⟩
            cases heq
            omega

/-- C2 (witness): a 26-bar history is accepted, via the amended theorem. -/
theorem C2_witness :
    (TechnicalAnalyzer.compute (fun _ => 0) "X"
        (some (List.replicate 26 ((5:ℚ), (100:ℚ))))).isSuccess = true :=
  (C2_success_iff_26_bars (fun _ => 0) "X" _).mpr
    ⟨List.replicate 26 ((5:ℚ), (100:ℚ)), rfl, by simp⟩

/-- Helper: looking a key up after `dset` of the same key yields the stored
value. -/
theorem lookup_dset_self {β : Type} (k : String) (v : β) (d : List (String × β)) :
    List.lookup k (dset k v d) = some v := by
  induction d with
  | nil => simp [dset, List.lookup]
  | cons kv rest ih =>
    obtain ⟨k2, w⟩ := kv
    by_cases h : k2 = k
    · simp [dset, h, List.lookup]
    · have hb : (k == k2) = false := by simp [Ne.symm h]
      simp [dset, if_neg h, List.lookup, hb, ih]

/-- Helper: `dset` of a different key does not change a lookup. -/
theorem lookup_dset_ne {β : Type} {k2 k : String} (h : k2 ≠ k) (v : β)
    (d : List (String × β)) : List.lookup k2 (dset k v d) = List.lookup k2 d := by
  induction d with
  | nil =>
    have hb : (k2 == k) = false := by simp [h]
    simp [dset, List.lookup, hb]
  | cons kv rest ih =>
    obtain ⟨k3, w⟩ := kv
    by_cases h3 : k3 = k
    · subst h3
      have hb : (k2 == k3) = false := by simp [h]
      simp [dset, List.lookup, hb]
    · by_cases h2 : k2 = k3
      · subst h2
        simp [dset, if_neg h3, List.lookup]
      · have hb : (k2 == k3) = false := by simp [h2]
        simp [dset, if_neg h3, List.lookup, hb, ih]

/-- Helper: the dynamic-hit fold of `detectHits` never touches keys outside
the dynamic list. -/
theorem detect_fold_frame (dyn : List (String × ℚ)) (hits : List (String × ℤ))
    (t : String) (ht : t ∉ dyn.map Prod.fst) :
    List.lookup t (dyn.foldl (fun hits td =>
      if (List.lookup td.1 hits).isSome then hits
      else dset td.1 (max 1 (pyTrunc (td.2 * 3))) hits) hits) = List.lookup t hits := by
  induction dyn generalizing hits with
  | nil => rfl
  | cons td rest ih =>
    simp only [List.map_cons, List.mem_cons] at ht
    push_neg at ht
    simp only [List.foldl_cons]
    rw [ih _ ht.2]
    by_cases h : (List.lookup td.1 hits).isSome
    · rw [if_pos h]
    · rw [if_neg h, lookup_dset_ne ht.1]

/-- Helper: the dynamic-hit fold assigns `max 1 (trunc(rel * 3))` to any
dynamic ticker with distinct keys that is not already hit. -/
theorem detect_fold_assigns (dyn : List (String × ℚ)) (hits : List (String × ℤ))
    (t : String) (rel : ℚ) (hnodup : (dyn.map Prod.fst).Nodup)
    (hmem : (t, rel) ∈ dyn) (hmiss : List.lookup t hits = none) :
    List.lookup t (dyn.foldl (fun hits td =>
      if (List.lookup td.1 hits).isSome then hits
      else dset td.1 (max 1 (pyTrunc (td.2 * 3))) hits) hits) =
      some (max 1 (pyTrunc (rel * 3))) := by
  induction dyn generalizing hits with
  | nil => cases hmem
  | cons td rest ih =>
    simp only [List.map_cons, List.nodup_cons] at hnodup
    rcases List.mem_cons.mp hmem with heq | hrest
    · subst heq
      simp only [List.foldl_cons, hmiss, Option.isSome_none, Bool.false_eq_true, if_false]
      rw [detect_fold_frame _ _ _ hnodup.1]
      exact lookup_dset_self _ _ _
    · have htne : t ≠ td.1 := by
        intro hteq
        exact hnodup.1 (hteq ▸ List.mem_map_of_mem Prod.fst hrest)
      simp only [List.foldl_cons]
      by_cases h : (List.lookup td.1 hits).isSome
      · rw [if_pos h]
        exact ih _ hnodup.2 hrest hmiss
      · rw [if_neg h]
        exact ih _ hnodup.2 hrest (by rw [lookup_dset_ne htne]; exact hmiss)

/-- C3 (amended): in `CompanyDetector.detect`, every ticker of the dynamic
resolver pass (with distinct keys) that was not hit by alias or symbol
matching receives the pseudo hit-count `max(1, int(relevance * 3))` —
Python `int` truncation toward zero, not rounding. -/
theorem C3_pseudo_hitcount_trunc (aliases : List (String × String))
    (tradeable : List String) (dyn : List (String × ℚ)) (text : String)
    (t : String) (rel : ℚ) (hnodup : (dyn.map Prod.fst).Nodup)
    (hmem : (t, rel) ∈ dyn)
    (hmiss : List.lookup t (CompanyDetector.baseHits aliases tradeable text) = none) :
    List.lookup t (CompanyDetector.detectHits aliases tradeable dyn text) =
      some (max 1 (pyTrunc (rel * 3))) := by
  unfold CompanyDetector.detectHits
  exact detect_fold_assigns dyn _ t rel hnodup hmem hmiss

/-- C3 (witness): the amended pseudo hit-count at the concrete text
"Apple soars" with resolver output `UBER ↦ 0.9` is `max(1, int(2.7)) = 2`. -/
theorem C3_witness :
    List.lookup "UBER"
        (CompanyDetector.detectHits COMPANY_ALIASES CompanyDetector.DEFAULT_TRADEABLE
          [("UBER", 9/10)] "Apple soars") = some (max 1 (pyTrunc ((9/10 : ℚ) * 3))) :=
  C3_pseudo_hitcount_trunc COMPANY_ALIASES CompanyDetector.DEFAULT_TRADEABLE
    [("UBER", 9/10)] "Apple soars" "UBER" (9/10)
    (by with_unfolding_all decide) (by with_unfolding_all decide)
    (by with_unfolding_all decide)

/-- Helper: the BUY/SELL decision through the threshold conditional, for any
blended score and confidence. -/
theorem action_decision_iff (agg conf : ℚ) :
    ((if agg > SignalGenerator.BUY_THRESHOLD ∧ conf ≥ SignalGenerator.MIN_CONFIDENCE
        then TradeAction.BUY
      else if agg < SignalGenerator.SELL_THRESHOLD ∧ conf ≥ SignalGenerator.MIN_CONFIDENCE
        then TradeAction.SELL
      else TradeAction.HOLD) = TradeAction.BUY ↔
        agg > SignalGenerator.BUY_THRESHOLD ∧ conf ≥ SignalGenerator.MIN_CONFIDENCE) ∧
    ((if agg > SignalGenerator.BUY_THRESHOLD ∧ conf ≥ SignalGenerator.MIN_CONFIDENCE
        then TradeAction.BUY
      else if agg < SignalGenerator.SELL_THRESHOLD ∧ conf ≥ SignalGenerator.MIN_CONFIDENCE
        then TradeAction.SELL
      else TradeAction.HOLD) = TradeAction.SELL ↔
        agg < SignalGenerator.SELL_THRESHOLD ∧ conf ≥ SignalGenerator.MIN_CONFIDENCE) := by
  have hBS : agg > SignalGenerator.BUY_THRESHOLD → ¬ agg < SignalGenerator.SELL_THRESHOLD := by
    unfold SignalGenerator.BUY_THRESHOLD SignalGenerator.SELL_THRESHOLD
    intro h1 h2
    linarith
  split_ifs with h1 h2
  · refine ⟨iff_of_true rfl h1, iff_of_false (by decide) ?_⟩
    intro hc
    exact hBS h1.1 hc.1
  · exact ⟨iff_of_false (by decide) h1, iff_of_true rfl h2⟩
  · exact ⟨iff_of_false (by decide) h1, iff_of_false (by decide) h2⟩

/-- Helper: every raw recommendation's action is decided by the strict
0.15 score thresholds and the 0.3 minimum confidence, on the unrounded
blended values carried by the record. -/
theorem rawRecsFrom_action_spec (tech : List (String × TASnapshot))
    (l : List (String × TickerData)) (r : RawRec)
    (hr : r ∈ SignalGenerator.rawRecsFrom tech l) :
    (r.action = .BUY ↔
        r.aggScore > SignalGenerator.BUY_THRESHOLD ∧ r.confidence ≥ SignalGenerator.MIN_CONFIDENCE) ∧
      (r.action = .SELL ↔
        r.aggScore < SignalGenerator.SELL_THRESHOLD ∧ r.confidence ≥ SignalGenerator.MIN_CONFIDENCE) := by
  induction l with
  | nil => simp [SignalGenerator.rawRecsFrom] at hr
  | cons kv rest ih =>
    rw [SignalGenerator.rawRecsFrom] at hr
    dsimp only at hr
    split at hr
    · exact ih hr
    · rcases List.mem_cons.mp hr with heq | hrest
      · subst heq
        exact action_decision_iff _ _
      · exact ih hrest

/-- C5 (confirmed): in `SignalGenerator.generate`, each per-ticker action is
BUY exactly when the blended score exceeds 0.15 and the combined confidence
is at least 0.3, SELL exactly when the score is below -0.15 with the same
confidence floor, and HOLD otherwise; in particular a blended score of
exactly 0.15 or exactly -0.15 yields HOLD regardless of confidence. -/
theorem C5_action_thresholds (decayW : ℚ → ℚ) (analyses : List StoryAnalysis)
    (tech : List (String × TASnapshot)) (r : RawRec)
    (hr : r ∈ SignalGenerator.rawRecs decayW analyses tech) :
    (r.action = .BUY ↔
        r.aggScore > SignalGenerator.BUY_THRESHOLD ∧
          r.confidence ≥ SignalGenerator.MIN_CONFIDENCE) ∧
      (r.action = .SELL ↔
        r.aggScore < SignalGenerator.SELL_THRESHOLD ∧
          r.confidence ≥ SignalGenerator.MIN_CONFIDENCE) ∧
      ((r.aggScore = SignalGenerator.BUY_THRESHOLD ∨
          r.aggScore = SignalGenerator.SELL_THRESHOLD) → r.action = .HOLD) := by
  obtain ⟨h1, h2⟩ := rawRecsFrom_action_spec tech _ r hr
  refine ⟨h1, h2, ?_⟩
  intro hb
  cases ha : r.action with
  | BUY =>
    obtain ⟨hgt, _⟩ := h1.mp ha
    rcases hb with hb | hb <;> rw [hb] at hgt
    · exact absurd hgt (lt_irrefl _)
    · exact absurd hgt (by unfold SignalGenerator.BUY_THRESHOLD SignalGenerator.SELL_THRESHOLD; norm_num)
  | SELL =>
    obtain ⟨hlt, _⟩ := h2.mp ha
    rcases hb with hb | hb <;> rw [hb] at hlt
    · exact absurd hlt (by unfold SignalGenerator.BUY_THRESHOLD SignalGenerator.SELL_THRESHOLD; norm_num)
    · exact absurd hlt (lt_irrefl _)
  | HOLD => rfl

/-- C5 (witness): the thresholds at a concrete one-story input whose blended
score is 0.8 and confidence exactly 0.3: the action is BUY. -/
theorem C5_witness :
    (⟨"NVDA", .BUY, 3/10, 8/10, 8/10, 1, ["nv up"], none⟩ : RawRec) ∈
        SignalGenerator.rawRecs (fun _ => 1) [⟨8/10, 9/10, [("NVDA", 1)], 0, "nv up"⟩] [] ∧
      (⟨"NVDA", .BUY, 3/10, 8/10, 8/10, 1, ["nv up"], none⟩ : RawRec).action = .BUY := by
  have hr : (⟨"NVDA", .BUY, 3/10, 8/10, 8/10, 1, ["nv up"], none⟩ : RawRec) ∈
      SignalGenerator.rawRecs (fun _ => 1) [⟨8/10, 9/10, [("NVDA", 1)], 0, "nv up"⟩] [] := by
    with_unfolding_all decide
  refine ⟨hr, ?_⟩
  exact (C5_action_thresholds (fun _ => 1) [⟨8/10, 9/10, [("NVDA", 1)], 0, "nv up"⟩] [] _ hr).1.mpr
    (by constructor <;> with_unfolding_all decide)

instance : IsTotal Recommendation SignalGenerator.recLE :=
  ⟨fun x y => by
    unfold SignalGenerator.recLE
    rcases lt_trichotomy (SignalGenerator.actionOrder x.action)
      (SignalGenerator.actionOrder y.action) with h | h | h
    · exact Or.inl (Or.inl h)
    · rcases le_total y.confidence x.confidence with hc | hc
      · exact Or.inl (Or.inr ⟨h, hc⟩)
      · exact Or.inr (Or.inr ⟨h.symm, hc⟩)
    · exact Or.inr (Or.inl h)⟩

instance : IsTrans Recommendation SignalGenerator.recLE :=
  ⟨fun x y z hxy hyz => by
    unfold SignalGenerator.recLE at hxy hyz ⊢
    rcases hxy with h1 | ⟨h1, hc1⟩ <;> rcases hyz with h2 | ⟨h2, hc2⟩
    · exact Or.inl (by omega)
    · exact Or.inl (by omega)
    · exact Or.inl (by omega)
    · exact Or.inr ⟨by omega, le_trans hc2 hc1⟩⟩

/-- Helper: inserting an element not selected by a filter leaves the
filtered list unchanged. -/
theorem filter_orderedInsert_neg {α : Type} (r : α → α → Prop) [DecidableRel r]
    (p : α → Bool) (a : α) (l : List α) (hpa : p a = false) :
    (List.orderedInsert r a l).filter p = l.filter p := by
  induction l with
  | nil => simp [List.orderedInsert, hpa]
  | cons b l ih =>
    rw [List.orderedInsert]
    by_cases hr : r a b
    · rw [if_pos hr, List.filter_cons, if_neg (by simp [hpa])]
    · rw [if_neg hr, List.filter_cons, List.filter_cons, ih]

/-- Helper: inserting a selected element that sorts no later than every
selected element prepends it to the filtered list. -/
theorem filter_orderedInsert_pos {α : Type} (r : α → α → Prop) [DecidableRel r]
    (p : α → Bool) (a : α) (l : List α) (hpa : p a = true)
    (h : ∀ b, p b = true → r a b) :
    (List.orderedInsert r a l).filter p = a :: l.filter p := by
  induction l with
  | nil => simp [List.orderedInsert, hpa]
  | cons b l ih =>
    rw [List.orderedInsert]
    by_cases hr : r a b
    · rw [if_pos hr, List.filter_cons, if_pos (by simp [hpa])]
    · have hpb : p b = false := by
        rcases hb : p b with _ | _
        · rfl
        · exact absurd (h b hb) hr
      rw [if_neg hr, List.filter_cons, if_neg (by simp [hpb]), ih,
        List.filter_cons, if_neg (by simp [hpb])]

/-- Helper: a stable sort preserves the filtered sublist of every key class
(elements of one class are mutually related by the sort relation). -/
theorem filter_insertionSort_key {α : Type} (r : α → α → Prop) [DecidableRel r]
    (p : α → Bool) (hp : ∀ a b, p a = true → p b = true → r a b) (l : List α) :
    (List.insertionSort r l).filter p = l.filter p := by
  induction l with
  | nil => rfl
  | cons a l ih =>
    rw [List.insertionSort]
    by_cases hpa : p a
    · rw [filter_orderedInsert_pos r p a _ hpa (fun b hb => hp a b hpa hb), ih,
        List.filter_cons, if_pos (by simp [hpa])]
    · have hpa2 : p a = false := by simpa using hpa
      rw [filter_orderedInsert_neg r p a _ hpa2, ih, List.filter_cons,
        if_neg (by simp [hpa2])]

/-- C9 (confirmed): in the list returned by `SignalGenerator.generate`,
every BUY or SELL precedes every HOLD (pairwise: whatever follows a HOLD is
a HOLD), confidences are non-increasing within each action group, and the
sort is stable: for every sort key, the recommendations carrying that key
appear in the same order as in the pre-sort recommendation list. -/
theorem C9_output_ordering (decayW : ℚ → ℚ) (analyses : List StoryAnalysis)
    (tech : List (String × TASnapshot)) :
    ((SignalGenerator.generate decayW analyses tech).Pairwise fun x y =>
        (x.action = .HOLD → y.action = .HOLD) ∧
          (x.action = y.action → y.confidence ≤ x.confidence)) ∧
      ∀ k : ℕ × ℚ,
        (SignalGenerator.generate decayW analyses tech).filter
            (fun x => decide ((SignalGenerator.actionOrder x.action, x.confidence) = k)) =
          (SignalGenerator.preSortRecs decayW analyses tech).filter
            (fun x => decide ((SignalGenerator.actionOrder x.action, x.confidence) = k)) := by
  constructor
  · have hs := List.sorted_insertionSort SignalGenerator.recLE
      (SignalGenerator.preSortRecs decayW analyses tech)
    rw [SignalGenerator.generate]
    refine List.Pairwise.imp ?_ hs
    intro x y hxy
    constructor
    · intro hx
      cases hy : y.action
      case HOLD => rfl
      all_goals
        exfalso
        rcases hxy with h | ⟨h, _⟩ <;>
          simp [SignalGenerator.actionOrder, hx, hy] at h
    · intro hxyeq
      rcases hxy with h | ⟨_, hc⟩
      · rw [hxyeq] at h
        exact absurd h (lt_irrefl _)
      · exact hc
  · intro k
    rw [SignalGenerator.generate]
    refine filter_insertionSort_key SignalGenerator.recLE _ ?_ _
    intro a b ha hb
    have ha2 := of_decide_eq_true ha
    have hb2 := of_decide_eq_true hb
    have hab := ha2.trans hb2.symm
    rw [Prod.mk.injEq] at hab
    exact Or.inr ⟨hab.1, le_of_eq hab.2.symm⟩

/-- C9 (witness): the ordering properties at a concrete two-story input. -/
theorem C9_witness :
    ((SignalGenerator.generate (fun _ => 1)
        [⟨8/10, 9/10, [("NVDA", 1)], 0, "a"⟩, ⟨-(8/10), 9/10, [("XOM", 1)], 0, "b"⟩] []).Pairwise
        fun x y => (x.action = .HOLD → y.action = .HOLD) ∧
          (x.action = y.action → y.confidence ≤ x.confidence)) :=
  (C9_output_ordering (fun _ => 1)
    [⟨8/10, 9/10, [("NVDA", 1)], 0, "a"⟩, ⟨-(8/10), 9/10, [("XOM", 1)], 0, "b"⟩] []).1

/-- C8 (confirmed): none of the three caches ever serves a stored entry at or
beyond its TTL: with a cached entry strictly younger than the TTL the stored
value is served and the cache is untouched; with an entry at or beyond the
TTL a fresh fetch is performed and stored.  Stated for the resolver cache
(30 min), the price cache (2 min) and the technical cache (10 min). -/
theorem C8_caches_ttl :
    (∀ (search : String → Option (List (String × String)))
        (cache : List (String × (Option String × ℚ))) (now : ℚ) (name : String)
        (v : Option String) (ts : ℚ),
      List.lookup (String.mk (pyStrip (pyLower name.data))) cache = some (v, ts) →
        (now - ts < RESOLVER_CACHE_TTL →
          DynamicResolver.resolve search cache now name = (v, cache)) ∧
        (RESOLVER_CACHE_TTL ≤ now - ts →
          DynamicResolver.resolve search cache now name =
            (DynamicResolver.lookupName search name,
              dset (String.mk (pyStrip (pyLower name.data)))
                (DynamicResolver.lookupName search name, now) cache))) ∧
    (∀ (fetch : String → Option (ℚ × String)) (cache : List (String × (ℚ × ℚ)))
        (now : ℚ) (symbol : String) (p ts : ℚ),
      List.lookup symbol cache = some (p, ts) →
        (now - ts < PRICE_CACHE_TTL →
          ExchangePriceFilter.getPriceInfo fetch cache now symbol = (.success p none, cache)) ∧
        (PRICE_CACHE_TTL ≤ now - ts →
          ExchangePriceFilter.getPriceInfo fetch cache now symbol =
            match fetch symbol with
            | none => (.failure, cache)
            | some (q, e) =>
              (.success (pyRound q 2) (some e), dset symbol (pyRound q 2, now) cache))) ∧
    (∀ (tanh : ℚ → ℚ) (fetchHist : String → Option (List (ℚ × ℚ)))
        (cache : List (String × (TAResult × ℚ))) (now : ℚ) (symbol : String)
        (r : TAResult) (ts : ℚ),
      List.lookup symbol cache = some (r, ts) →
        (now - ts < TA_CACHE_TTL →
          TechnicalAnalyzer.analyze tanh fetchHist cache now symbol = (r, cache)) ∧
        (TA_CACHE_TTL ≤ now - ts →
          TechnicalAnalyzer.analyze tanh fetchHist cache now symbol =
            (TechnicalAnalyzer.compute tanh symbol (fetchHist symbol),
              dset symbol (TechnicalAnalyzer.compute tanh symbol (fetchHist symbol), now)
                cache))) := by
  refine ⟨?_, ?_, ?_⟩
  · intro search cache now name v ts hlk
    unfold DynamicResolver.resolve
    dsimp only
    rw [hlk]
    dsimp only
    constructor
    · intro hfresh
      rw [if_pos hfresh]
    · intro hstale
      rw [if_neg (not_lt.mpr hstale)]
  · intro fetch cache now symbol p ts hlk
    unfold ExchangePriceFilter.getPriceInfo
    rw [hlk]
    dsimp only
    constructor
    · intro hfresh
      rw [if_pos hfresh]
    · intro hstale
      rw [if_neg (not_lt.mpr hstale)]
  · intro tanh fetchHist cache now symbol r ts hlk
    unfold TechnicalAnalyzer.analyze
    rw [hlk]
    dsimp only
    constructor
    · intro hfresh
      rw [if_pos hfresh]
    · intro hstale
      rw [if_neg (not_lt.mpr hstale)]

/-- C8 (witness): the six TTL behaviours at concrete caches: a 10-second-old
entry is served, a TTL-old entry triggers a fresh fetch, for each cache. -/
theorem C8_witness :
    (DynamicResolver.resolve (fun _ => none) [("n", (some "T", 0))] 10 "n" =
        (some "T", [("n", (some "T", 0))])) ∧
      (DynamicResolver.resolve (fun _ => none) [("n", (some "T", 0))] 1800 "n" =
        (DynamicResolver.lookupName (fun _ => none) "n",
          dset (String.mk (pyStrip (pyLower "n".data)))
            (DynamicResolver.lookupName (fun _ => none) "n", 1800) [("n", (some "T", 0))])) ∧
      (ExchangePriceFilter.getPriceInfo (fun _ => none) [("A", (9, 0))] 10 "A" =
        (.success 9 none, [("A", (9, 0))])) ∧
      (ExchangePriceFilter.getPriceInfo (fun _ => none) [("A", (9, 0))] 120 "A" =
        (.failure, [("A", (9, 0))])) ∧
      (TechnicalAnalyzer.analyze (fun _ => 0) (fun _ => none) [("A", (.failure "A", 0))] 10 "A" =
        (.failure "A", [("A", (.failure "A", 0))])) ∧
      (TechnicalAnalyzer.analyze (fun _ => 0) (fun _ => none) [("A", (.failure "A", 0))] 600 "A" =
        (TechnicalAnalyzer.compute (fun _ => 0) "A" none,
          dset "A" (TechnicalAnalyzer.compute (fun _ => 0) "A" none, 600)
            [("A", (.failure "A", 0))])) := by
  refine ⟨?_, ?_, ?_, ?_, ?_, ?_⟩
  · exact (C8_caches_ttl.1 (fun _ => none) [("n", (some "T", 0))] 10 "n" (some "T") 0
      (by with_unfolding_all decide)).1 (by with_unfolding_all decide)
  · exact (C8_caches_ttl.1 (fun _ => none) [("n", (some "T", 0))] 1800 "n" (some "T") 0
      (by with_unfolding_all decide)).2 (by with_unfolding_all decide)
  · exact (C8_caches_ttl.2.1 (fun _ => none) [("A", (9, 0))] 10 "A" 9 0
      (by with_unfolding_all decide)).1 (by with_unfolding_all decide)
  · exact (C8_caches_ttl.2.1 (fun _ => none) [("A", (9, 0))] 120 "A" 9 0
      (by with_unfolding_all decide)).2 (by with_unfolding_all decide)
  · exact (C8_caches_ttl.2.2 (fun _ => 0) (fun _ => none) [("A", (.failure "A", 0))] 10 "A"
      (.failure "A") 0 (by with_unfolding_all decide)).1 (by with_unfolding_all decide)
  · exact (C8_caches_ttl.2.2 (fun _ => 0) (fun _ => none) [("A", (.failure "A", 0))] 600 "A"
      (.failure "A") 0 (by with_unfolding_all decide)).2 (by with_unfolding_all decide)

/-- Helper: the result of `get_price_info` depends on the cache only through
the entry at the queried symbol. -/
theorem gpi_result_eq_of_lookup_eq (fetch : String → Option (ℚ × String))
    (c1 c2 : List (String × (ℚ × ℚ))) (now : ℚ) (t : String)
    (h : List.lookup t c1 = List.lookup t c2) :
    (ExchangePriceFilter.getPriceInfo fetch c1 now t).1 =
      (ExchangePriceFilter.getPriceInfo fetch c2 now t).1 := by
  unfold ExchangePriceFilter.getPriceInfo
  rw [h]
  rcases List.lookup t c2 with _ | ⟨p0, ts0⟩
  · dsimp only
    rcases fetch t with _ | ⟨q, e⟩ <;> rfl
  · dsimp only
    by_cases hf : now - ts0 < PRICE_CACHE_TTL
    · rw [if_pos hf, if_pos hf]
    · rw [if_neg hf, if_neg hf]
      rcases fetch t with _ | ⟨q, e⟩ <;> rfl

/-- Helper: a `get_price_info` call either leaves the cache unchanged or
stores the successful price under the queried symbol. -/
theorem gpi_cases (fetch : String → Option (ℚ × String))
    (c : List (String × (ℚ × ℚ))) (now : ℚ) (t : String) (info : PriceInfo)
    (state : List (String × (ℚ × ℚ)))
    (h : ExchangePriceFilter.getPriceInfo fetch c now t = (info, state)) :
    state = c ∨ ∃ p2 e, info = .success p2 e ∧ state = dset t (p2, now) c := by
  unfold ExchangePriceFilter.getPriceInfo at h
  rcases hlc : List.lookup t c with _ | ⟨p0, ts0⟩ <;> rw [hlc] at h <;> dsimp only at h
  · rcases hf : fetch t with _ | ⟨q, e⟩ <;> rw [hf] at h <;> dsimp only at h
    · cases h
      exact Or.inl rfl
    · cases h
      exact Or.inr ⟨pyRound q 2, some e, rfl, rfl⟩
  · by_cases hf : now - ts0 < PRICE_CACHE_TTL
    · rw [if_pos hf] at h
      cases h
      exact Or.inl rfl
    · rw [if_neg hf] at h
      rcases hfe : fetch t with _ | ⟨q, e⟩ <;> rw [hfe] at h <;> dsimp only at h
      · cases h
        exact Or.inl rfl
      · cases h
        exact Or.inr ⟨pyRound q 2, some e, rfl, rfl⟩

/-- Helper: re-querying `get_price_info` on its own output cache at the same
time yields the same price outcome (a just-stored entry is fresh, the TTL
being positive). -/
theorem gpi_priceOf_stable (fetch : String → Option (ℚ × String))
    (c : List (String × (ℚ × ℚ))) (now : ℚ) (t : String) :
    ((ExchangePriceFilter.getPriceInfo fetch
        (ExchangePriceFilter.getPriceInfo fetch c now t).2 now t).1).priceOf =
      ((ExchangePriceFilter.getPriceInfo fetch c now t).1).priceOf := by
  rcases hst : ExchangePriceFilter.getPriceInfo fetch c now t with ⟨info, state⟩
  rcases gpi_cases fetch c now t info state hst with hstate | ⟨p2, e, hinfo, hstate⟩
  · rw [hstate, hst]
  · rw [hstate]
    unfold ExchangePriceFilter.getPriceInfo
    rw [lookup_dset_self]
    dsimp only
    rw [if_pos (by unfold PRICE_CACHE_TTL; norm_num)]
    rw [hinfo]
    rfl

/-- Helper: characterisation of the `filter` loop state: a ticker maps to a
price in the accumulated output exactly when it was already there or it was
processed and its price lookup (against the original cache) succeeded at or
above the minimum.  The two invariants say the threaded cache is
outcome-equivalent to the original one and the accumulator is sound. -/
theorem filter_foldl_lookup (fetch : String → Option (ℚ × String))
    (cache : List (String × (ℚ × ℚ))) (now minPrice : ℚ) :
    ∀ (ts : List String) (valid : List (String × ℚ)) (c : List (String × (ℚ × ℚ))),
      (∀ u, ((ExchangePriceFilter.getPriceInfo fetch c now u).1).priceOf =
          ((ExchangePriceFilter.getPriceInfo fetch cache now u).1).priceOf) →
      (∀ u q, List.lookup u valid = some q →
          ((ExchangePriceFilter.getPriceInfo fetch cache now u).1).priceOf = some q ∧
            minPrice ≤ q) →
      ∀ t p,
        List.lookup t
            (List.foldl (ExchangePriceFilter.filterStep fetch now minPrice) (valid, c) ts).1 =
          some p ↔
        ((t ∈ ts ∧ ((ExchangePriceFilter.getPriceInfo fetch cache now t).1).priceOf = some p ∧
            minPrice ≤ p) ∨
          List.lookup t valid = some p) := by
  intro ts
  induction ts with
  | nil =>
    intro valid c hres hval t p
    simp
  | cons t0 ts2 ih =>
    intro valid c hres hval t p
    rw [List.foldl_cons]
    rcases hr : ExchangePriceFilter.getPriceInfo fetch c now t0 with ⟨info, c2⟩
    have hres2 : ∀ u, ((ExchangePriceFilter.getPriceInfo fetch c2 now u).1).priceOf =
        ((ExchangePriceFilter.getPriceInfo fetch cache now u).1).priceOf := by
      intro u
      by_cases hu : u = t0
      · subst hu
        have hstab := gpi_priceOf_stable fetch c now u
        rw [hr] at hstab
        dsimp only at hstab
        rw [hstab, ← hres u, hr]
      · rcases gpi_cases fetch c now t0 info c2 hr with hc2 | ⟨p2, e, _, hc2⟩
        · rw [hc2]
          exact hres u
        · rw [hc2, gpi_result_eq_of_lookup_eq fetch _ c now u (lookup_dset_ne hu _ _)]
          exact hres u
    have hpr : ((ExchangePriceFilter.getPriceInfo fetch cache now t0).1).priceOf = info.priceOf := by
      rw [← hres t0, hr]
    rcases info with ⟨p0, e⟩ | _
    · -- success case
      have hstep : ExchangePriceFilter.filterStep fetch now minPrice (valid, c) t0 =
          if p0 < minPrice then (valid, c2) else (dset t0 p0 valid, c2) := by
        unfold ExchangePriceFilter.filterStep
        dsimp only
        simp only [hr]
      by_cases hmin : p0 < minPrice
      · rw [hstep]
        rw [if_pos hmin]
        rw [ih valid c2 hres2 hval t p]
        have hS : ∀ p2, ¬ (((ExchangePriceFilter.getPriceInfo fetch cache now t0).1).priceOf =
            some p2 ∧ minPrice ≤ p2) := by
          intro p2 ⟨hp2, hge⟩
          rw [hpr] at hp2
          simp only [PriceInfo.priceOf, Option.some.injEq] at hp2
          subst hp2
          exact absurd hge (not_le.mpr hmin)
        constructor
        · rintro (⟨hmem, hSp⟩ | hlk)
          · exact Or.inl ⟨List.mem_cons_of_mem t0 hmem, hSp⟩
          · exact Or.inr hlk
        · rintro (⟨hmem, hSp⟩ | hlk)
          · rcases List.mem_cons.mp hmem with heq | hmem2
            · exact absurd hSp (heq ▸ hS p)
            · exact Or.inl ⟨hmem2, hSp⟩
          · exact Or.inr hlk
      · -- kept
        rw [hstep]
        rw [if_neg hmin]
        have hS0 : ((ExchangePriceFilter.getPriceInfo fetch cache now t0).1).priceOf = some p0 ∧
            minPrice ≤ p0 := by
          rw [hpr]
          exact ⟨rfl, not_lt.mp hmin⟩
        have hval2 : ∀ u q, List.lookup u (dset t0 p0 valid) = some q →
            ((ExchangePriceFilter.getPriceInfo fetch cache now u).1).priceOf = some q ∧
              minPrice ≤ q := by
          intro u q hq
          by_cases hu : u = t0
          · subst hu
            rw [lookup_dset_self] at hq
            cases hq
            exact hS0
          · rw [lookup_dset_ne hu] at hq
            exact hval u q hq
        rw [ih (dset t0 p0 valid) c2 hres2 hval2 t p]
        by_cases ht : t = t0
        · subst ht
          rw [lookup_dset_self]
          constructor
          · rintro (⟨hmem, hSp⟩ | hlk)
            · exact Or.inl ⟨List.mem_cons_self t ts2, hSp⟩
            · rw [Option.some_inj] at hlk
              subst hlk
              exact Or.inl ⟨List.mem_cons_self t ts2, hS0⟩
          · rintro (⟨_, hSp⟩ | hlk)
            · have : p = p0 := by
                have h1 := hSp.1
                have h2 := hS0.1
                rw [h1] at h2
                exact Option.some_inj.mp h2
              exact Or.inr (by rw [this])
            · have hSp := hval t p hlk
              have : p = p0 := by
                have h1 := hSp.1
                have h2 := hS0.1
                rw [h1] at h2
                exact Option.some_inj.mp h2
              exact Or.inr (by rw [this])
        · rw [lookup_dset_ne ht]
          constructor
          · rintro (⟨hmem, hSp⟩ | hlk)
            · exact Or.inl ⟨List.mem_cons_of_mem t0 hmem, hSp⟩
            · exact Or.inr hlk
          · rintro (⟨hmem, hSp⟩ | hlk)
            · rcases List.mem_cons.mp hmem with heq | hmem2
              · exact absurd heq ht
              · exact Or.inl ⟨hmem2, hSp⟩
            · exact Or.inr hlk
    · -- failure case
      have hstep : ExchangePriceFilter.filterStep fetch now minPrice (valid, c) t0 =
          (valid, c2) := by
        unfold ExchangePriceFilter.filterStep
        dsimp only
        simp only [hr]
      rw [hstep]
      rw [ih valid c2 hres2 hval t p]
      have hS : ∀ p2, ¬ (((ExchangePriceFilter.getPriceInfo fetch cache now t0).1).priceOf =
          some p2 ∧ minPrice ≤ p2) := by
        intro p2 ⟨hp2, _⟩
        rw [hpr] at hp2
        simp [PriceInfo.priceOf] at hp2
      constructor
      · rintro (⟨hmem, hSp⟩ | hlk)
        · exact Or.inl ⟨List.mem_cons_of_mem t0 hmem, hSp⟩
        · exact Or.inr hlk
      · rintro (⟨hmem, hSp⟩ | hlk)
        · rcases List.mem_cons.mp hmem with heq | hmem2
          · exact absurd hSp (heq ▸ hS p)
          · exact Or.inl ⟨hmem2, hSp⟩
        · exact Or.inr hlk

/-- C7 (confirmed): `ExchangePriceFilter.filter` returns exactly the tickers
whose price lookup (through `get_price_info`, i.e. cache-or-collaborator)
succeeded with a price at least the configured minimum, each mapped to that
price; a collaborator failure excludes only that ticker, and the exchange
value is never consulted (the characterisation holds for every `fetch`,
whatever exchange strings it reports, including none at all). -/
theorem C7_filter_characterisation (fetch : String → Option (ℚ × String))
    (cache : List (String × (ℚ × ℚ))) (now minPrice : ℚ) (tickers : List String)
    (t : String) (p : ℚ) :
    List.lookup t (ExchangePriceFilter.filter fetch cache now minPrice tickers).1 = some p ↔
      t ∈ tickers ∧
        ((ExchangePriceFilter.getPriceInfo fetch cache now t).1).priceOf = some p ∧
        minPrice ≤ p := by
  unfold ExchangePriceFilter.filter
  rw [filter_foldl_lookup fetch cache now minPrice tickers [] cache (fun u => rfl)
    (by intro u q h; simp [List.lookup] at h) t p]
  simp [List.lookup]

/-- C7 (witness): the characterisation at a concrete batch in which one
ticker succeeds above the minimum, one is under it and one has no data. -/
theorem C7_witness :
    List.lookup "AAPL"
        (ExchangePriceFilter.filter
          (fun s => if s = "AAPL" then some (150, "") else if s = "PENNY" then some (2, "NYQ") else none)
          [] 0 8 ["AAPL", "PENNY", "GONE"]).1 = some 150 :=
  (C7_filter_characterisation _ [] 0 8 ["AAPL", "PENNY", "GONE"] "AAPL" 150).mpr
    ⟨by with_unfolding_all decide, by with_unfolding_all decide, by with_unfolding_all decide⟩

/-- C10 (confirmed): whenever `analyze_stories` reaches the signal stage
(some story analyses survive step 1), the `tickers_detected` field of the
result equals the size of the price filter's output map — the number of
candidate tickers that survived the price filter, not the number of tickers
detected in story text — and the summary sentence is built with that same
filtered count in its "detected N tradeable tickers" slot. -/
theorem C10_tickers_detected_filtered_count (lexicon : List (String × ℚ))
    (aliases : List (String × String)) (themes : List (String × List (String × ℚ)))
    (tradeable : List String) (dynResolve : String → List (String × ℚ))
    (parseDate : String → Option ℚ) (decayW tanh : ℚ → ℚ)
    (priceFetch : String → Option (ℚ × String))
    (histFetch : String → Option (List (ℚ × ℚ)))
    (priceCache : List (String × (ℚ × ℚ))) (taCache : List (String × (TAResult × ℚ)))
    (minPrice now : ℚ) (filterHold : Bool) (maxRecs : ℕ) (stories : List Story)
    (hne : (LocalTradingEngine.step1 lexicon aliases themes tradeable dynResolve
      parseDate now stories).1 ≠ []) :
    (LocalTradingEngine.analyzeStories lexicon aliases themes tradeable dynResolve
        parseDate decayW tanh priceFetch histFetch priceCache taCache minPrice now
        filterHold maxRecs stories).tickers_detected =
      (ExchangePriceFilter.filter priceFetch priceCache now minPrice
        ((LocalTradingEngine.step1 lexicon aliases themes tradeable dynResolve
          parseDate now stories).2.2.map (fun kv => kv.1))).1.length ∧
    ∃ nTA buy sell bias,
      (LocalTradingEngine.analyzeStories lexicon aliases themes tradeable dynResolve
          parseDate decayW tanh priceFetch histFetch priceCache taCache minPrice now
          filterHold maxRecs stories).analysis_summary =
        LocalTradingEngine.summaryText stories.length
          (ExchangePriceFilter.filter priceFetch priceCache now minPrice
            ((LocalTradingEngine.step1 lexicon aliases themes tradeable dynResolve
              parseDate now stories).2.2.map (fun kv => kv.1))).1.length
          nTA buy sell bias := by
  have hcond : ¬ ((LocalTradingEngine.step1 lexicon aliases themes tradeable dynResolve
      parseDate now stories).1.isEmpty = true) := by
    simpa [List.isEmpty_iff] using hne
  unfold LocalTradingEngine.analyzeStories
  dsimp only
  rw [if_neg hcond]
  exact ⟨rfl, _, _, _, _, rfl⟩

/-- C10 (witness): the filtered-count reporting on a concrete one-story run
whose single candidate ticker AAPL survives a stubbed price filter. -/
theorem C10_witness :
    (LocalTradingEngine.step1 FINANCIAL_LEXICON COMPANY_ALIASES THEME_MAP
        CompanyDetector.DEFAULT_TRADEABLE (fun _ => []) (fun _ => none) 0
        [⟨"apple soars", "", "", ""⟩]).1 ≠ [] ∧
      (LocalTradingEngine.analyzeStories FINANCIAL_LEXICON COMPANY_ALIASES THEME_MAP
        CompanyDetector.DEFAULT_TRADEABLE (fun _ => []) (fun _ => none) (fun _ => 1) (fun _ => 0)
        (fun s => if s = "AAPL" then some (150, "NMS") else none) (fun _ => none)
        [] [] 8 0 true 8 [⟨"apple soars", "", "", ""⟩]).tickers_detected =
      (ExchangePriceFilter.filter (fun s => if s = "AAPL" then some (150, "NMS") else none)
        [] 0 8
        ((LocalTradingEngine.step1 FINANCIAL_LEXICON COMPANY_ALIASES THEME_MAP
          CompanyDetector.DEFAULT_TRADEABLE (fun _ => []) (fun _ => none) 0
          [⟨"apple soars", "", "", ""⟩]).2.2.map (fun kv => kv.1))).1.length := by
  have hne : (LocalTradingEngine.step1 FINANCIAL_LEXICON COMPANY_ALIASES THEME_MAP
      CompanyDetector.DEFAULT_TRADEABLE (fun _ => []) (fun _ => none) 0
      [⟨"apple soars", "", "", ""⟩]).1 ≠ [] := by
    with_unfolding_all decide
  exact ⟨hne, (C10_tickers_detected_filtered_count FINANCIAL_LEXICON COMPANY_ALIASES THEME_MAP
    CompanyDetector.DEFAULT_TRADEABLE (fun _ => []) (fun _ => none) (fun _ => 1) (fun _ => 0)
    (fun s => if s = "AAPL" then some (150, "NMS") else none) (fun _ => none)
    [] [] 8 0 true 8 [⟨"apple soars", "", "", ""⟩] hne).1⟩
